import Mathlib

/-!
Formal model of the maas-frontend provisioning backend.

The definitions below are a shallow embedding of the Python sources
`src/app.py` (selection, identifier resolution, job orchestration) and
`src/services/cloud_init_generator.py` (rule-based cloud-init generation).
Pure Python functions become Lean functions; the asynchronous job-execution
flow becomes explicit state passing with the external MAAS gateway modelled
as an oracle parameter; Python exceptions become `Except`.

Conventions used throughout:
* A Python `dict` field that may be absent is an `Option`; `d.get(k, v)` is
  `Option.getD`.  A JSON `null` stored under a key is treated the same as an
  absent key.
* Python truthiness of strings/lists ("" and [] are falsy) is modelled
  explicitly by the `pyTruthy*` helpers.
* Substring tests (`x in s`) are `List.IsInfix` on `String.data`.
-/

namespace MaasFrontend

/-! ### Python string/collection semantics helpers -/

/-- Python truthiness of an optional string: `None` and `""` are falsy. -/
def pyTruthyStr : Option String → Bool
  | none => false
  | some s => s ≠ ""

/-- Python truthiness of an optional list: `None` and `[]` are falsy. -/
def pyTruthyList : Option (List String) → Bool
  | none => false
  | some l => l ≠ []

/-- Python `a or b` for an optional string `a` with fallback `b`
(`None` and `""` fall through to the fallback). -/
def pyOrStr : Option String → String → String
  | none, b => b
  | some s, b => if s = "" then b else s

/-- Python whitespace characters recognised by `str.strip()`. -/
def isPySpace (c : Char) : Bool :=
  c = ' ' || c = '\t' || c = '\n' || c = '\r' || c = '\x0b' || c = '\x0c'

/-- Python `str.strip()`: remove leading and trailing whitespace. -/
def pyStrip (s : String) : String :=
  ⟨(s.data.dropWhile isPySpace).reverse.dropWhile isPySpace |>.reverse⟩

/-- Accumulating splitter for `pySplitNL` (the accumulator holds the
current chunk reversed). -/
def splitNLGo : List Char → List Char → List String
  | [], acc => [⟨acc.reverse⟩]
  | c :: rest, acc =>
      if c = '\n' then (⟨acc.reverse⟩ : String) :: splitNLGo rest []
      else splitNLGo rest (c :: acc)

/-- Python `s.split('\n')` (empty chunks are kept). -/
def pySplitNL (s : String) : List String := splitNLGo s.data []

/-- Python `sub in s` (substring containment), as a proposition. -/
def strContains (s sub : String) : Prop := sub.data <:+: s.data

instance (s sub : String) : Decidable (strContains s sub) :=
  List.decidableInfix sub.data s.data

/-- Python `s.startswith(p)`. -/
def pyStartsWith (s p : String) : Prop := p.data <+: s.data

instance (s p : String) : Decidable (pyStartsWith s p) :=
  inferInstanceAs (Decidable (p.data <+: s.data))

/-- Python `s.lower()` (ASCII case folding, which covers every string the
program compares). -/
def pyLower (s : String) : String := ⟨s.data.map Char.toLower⟩

/-- Lexicographic `≤` on code points, the order Python's `sorted` uses on
strings. -/
def lexLeB : List Char → List Char → Bool
  | [], _ => true
  | _ :: _, [] => false
  | a :: as, b :: bs =>
      if a.toNat = b.toNat then lexLeB as bs else decide (a.toNat < b.toNat)

/-- Python `sorted(…)` on strings (lexicographic by code point). -/
def pySorted (l : List String) : List String :=
  l.mergeSort (fun a b => lexLeB a.data b.data)

/-- Join a list of lines, terminating every line with `'\n'`
(the shape produced by the YAML serializer and the header templates). -/
def unlines : List String → String
  | [] => ""
  | l :: ls => l ++ "\n" ++ unlines ls

/-! ### Fleet data model

A `Machine` is the slice of a MAAS machine record that the backend reads:
`system_id`, `hostname`, `fqdn`, `status_name`, `pool.name`, `tag_names`,
`architecture`, `cpu_count`, `memory`. -/

structure Machine where
  system_id : String
  hostname : Option String := none
  fqdn : Option String := none
  status_name : String := ""
  pool : Option String := none
  tag_names : List String := []
  architecture : Option String := none
  cpu_count : Option Nat := none
  memory : Option Nat := none
  deriving Repr, DecidableEq

/-- `machine.get('pool', {}).get('name', 'default')`. -/
def Machine.poolName (m : Machine) : String := m.pool.getD "default"

/-! ### Tag-match predicates (src/app.py lines 694-709)

`match_mode == 'any'`: the machine must carry at least one requested tag;
otherwise (the `'all'` default) it must carry every requested tag. -/

/-- `any(tag in machine_tags for tag in tags)`. -/
def anyTagMatch (tags : List String) (m : Machine) : Bool :=
  tags.any (fun tag => m.tag_names.contains tag)

/-- `all(tag in machine_tags for tag in tags)`. -/
def allTagMatch (tags : List String) (m : Machine) : Bool :=
  tags.all (fun tag => m.tag_names.contains tag)

/-- The selection-engine tag predicate for a given `tag_match_mode`
(src/app.py lines 699-706). -/
def selTagPred (matchMode : String) (tags : List String) (m : Machine) : Bool :=
  if matchMode = "any" then anyTagMatch tags m else allTagMatch tags m

/-! ### Identifier resolution (src/app.py lines 539-607) -/

/-- The keys of `id_to_hostname`: every machine's `system_id`. -/
def knownIds (fleet : List Machine) : List String := fleet.map (·.system_id)

/-- The (string) keys of `hostname_to_id`: every machine's hostname. -/
def knownHostnames (fleet : List Machine) : List String :=
  fleet.filterMap (·.hostname)

/-- `hostname_to_id[h]`: the dict is filled by a left-to-right loop over the
fleet, so the last machine carrying hostname `h` wins. -/
def hostnameToId (fleet : List Machine) (h : String) : Option String :=
  ((fleet.filter (fun m => m.hostname = some h)).map (·.system_id)).getLast?

/-- One trip through the resolution loop body (src/app.py lines 569-578):
a token is first tried as an exact system id, then as an exact hostname. -/
def resolveOne (fleet : List Machine) (ident : String) : Option String :=
  if ident ∈ knownIds fleet then some ident
  else hostnameToId fleet ident

/-- The payload of the HTTP 400 raised at src/app.py lines 584-592. -/
structure ResolutionError where
  unresolved : List String
  available_hostnames : List String
  available_system_ids : List String
  deriving Repr, DecidableEq

/-- `resolve_machine_identifiers` (src/app.py lines 539-607).  The loop
accumulates `resolved_ids` and `unresolved` in input order and raises one
error naming every unresolved token when `unresolved` is non-empty.
`sorted(hostname_to_id.keys())` is modelled as the sorted deduplicated list
of known hostnames (dict keys are distinct; sorting erases insertion order).
Machines whose record carries no hostname contribute no string key. -/
def resolveMachineIdentifiers (fleet : List Machine) (identifiers : List String) :
    Except ResolutionError (List String) :=
  if identifiers.filter (fun i => (resolveOne fleet i).isNone) = [] then
    .ok (identifiers.filterMap (resolveOne fleet))
  else
    .error { unresolved := identifiers.filter (fun i => (resolveOne fleet i).isNone)
             available_hostnames := pySorted (knownHostnames fleet).dedup
             available_system_ids := pySorted (knownIds fleet).dedup }

/-! ### Provisioning requests and auto-selection (src/app.py lines 609-821) -/

/-- `MachineProvisionRequest` (src/app.py lines 42-50), with the pydantic
defaults. -/
structure ProvisionRequest where
  machines : Option (List String) := none
  distro_series : Option String := some "jammy"
  user_data : Option String := none
  tags : Option (List String) := none
  pool : Option String := none
  count : Option Int := none
  auto_select : Option Bool := some false
  tag_match_mode : Option String := some "all"
  deriving Repr

/-- The mode test repeated at src/app.py lines 616, 665 and 669:
`request.auto_select or (request.tags and len(request.tags) > 0 and not
request.machines)`. -/
def autoMode (r : ProvisionRequest) : Bool :=
  r.auto_select.getD false || (pyTruthyList r.tags && !pyTruthyList r.machines)

/-- The payload of the HTTP 409 raised at src/app.py lines 719-739.
`available_machines` keeps the ready candidates themselves (the handler
serialises their `system_id`/`hostname`/`tags`/`pool` projections). -/
structure InsufficientResourcesError where
  requested_count : Int
  available_count : Nat
  required_tags : List String
  pool : String
  available_machines : List Machine
  deriving Repr

/-- The `resource_validation` summary built at src/app.py lines 744-755. -/
structure ResourceValidation where
  auto_selected : Bool
  requested_count : Int
  available_count : Nat
  selected_machines : Nat
  criteria_tags : List String
  criteria_tag_match_mode : String
  criteria_pool : Option String
  criteria_status : String
  deriving Repr

/-- Pool pre-filter by the configured allowed pools
(src/app.py lines 681-685). -/
def poolFilteredMachines (configuredPools : List String) (fleet : List Machine) :
    List Machine :=
  fleet.filter (fun m => configuredPools.contains m.poolName)

/-- Optional request-level pool filter (src/app.py lines 688-691); skipped
when `request.pool` is falsy. -/
def requestPoolFilter (rpool : Option String) (ms : List Machine) : List Machine :=
  if pyTruthyStr rpool then ms.filter (fun m => m.poolName == rpool.getD "") else ms

/-- Tag filter by match mode (src/app.py lines 693-706). -/
def taggedMachines (matchMode : String) (tags : List String) (ms : List Machine) :
    List Machine :=
  ms.filter (selTagPred matchMode tags)

/-- Ready-status filter (src/app.py line 709). -/
def readyMachines (ms : List Machine) : List Machine :=
  ms.filter (fun m => m.status_name = "Ready")

/-- The ready candidates considered by auto-selection, in fleet-snapshot
order. -/
def readyCandidates (configuredPools : List String) (r : ProvisionRequest)
    (fleet : List Machine) : List Machine :=
  readyMachines
    (taggedMachines (pyOrStr r.tag_match_mode "all") (r.tags.getD [])
      (requestPoolFilter r.pool (poolFilteredMachines configuredPools fleet)))

/-- The auto-selection block of `provision_machines`
(src/app.py lines 669-757), called only after validation established
`request.count ≥ 1` and a non-empty tag list. -/
def autoSelectMachines (configuredPools : List String) (r : ProvisionRequest)
    (fleet : List Machine) :
    Except InsufficientResourcesError (List String × ResourceValidation) :=
  let ready := readyCandidates configuredPools r fleet
  let count : Int := r.count.getD 0
  if (ready.length : Int) < count then
    .error { requested_count := count
             available_count := ready.length
             required_tags := r.tags.getD []
             pool := pyOrStr r.pool "any configured pool"
             available_machines := ready }
  else
    let selected := (ready.take count.toNat).map (·.system_id)
    .ok (selected,
         { auto_selected := true
           requested_count := count
           available_count := ready.length
           selected_machines := selected.length
           criteria_tags := r.tags.getD []
           criteria_tag_match_mode := pyOrStr r.tag_match_mode "all"
           criteria_pool := r.pool
           criteria_status := "Ready" })

/-! ### Rule-based cloud-init generation
(src/services/cloud_init_generator.py) -/

/-- Python `sub in s` as a `Bool`. -/
def strContainsB (s sub : String) : Bool := decide (strContains s sub)

/-- `any(x in os_type.lower() for x in ['rocky', 'rhel', 'centos'])`
(src/services/cloud_init_generator.py line 13; the same test is used on the
distro series at src/app.py line 487). -/
def isRockyOsType (os_type : String) : Bool :=
  ["rocky", "rhel", "centos"].any (fun x => strContainsB (pyLower os_type) x)

/-- Rocky/RHEL package set (src/services/cloud_init_generator.py
lines 16-23). -/
def rockyPackages : List String :=
  ["curl", "wget", "git", "htop", "vim", "net-tools", "openssh-server", "sudo",
   "tar", "gzip",
   "lldpd", "nvme-cli", "strace", "ltrace", "crash", "kexec-tools",
   "ibverbs-utils", "infiniband-diags", "screen", "tmux", "ipmitool",
   "rdma-core", "wireshark-cli", "fio", "smartmontools", "atop"]

/-- Ubuntu package set (src/services/cloud_init_generator.py lines 25-31). -/
def ubuntuPackages : List String :=
  ["curl", "wget", "git", "htop", "vim", "net-tools", "openssh-server",
   "lldpd", "nvme-cli", "strace", "ltrace", "crash", "kdump-tools",
   "ibverbs-utils", "ibutils", "infiniband-diags", "screen", "tmux",
   "ipmitool", "rdma-core", "tshark", "termshark", "fio", "smartmontools",
   "iozone3", "atop"]

/-- The credentials dict passed to the generator (shape of
`/api/user/credentials`, src/app.py lines 325-335). -/
structure UserCredentials where
  configured : Option Bool := none
  username : Option String := none
  password : Option String := none
  deriving Repr, DecidableEq

/-- The guard for adding a `users:` section
(src/services/cloud_init_generator.py line 40): credentials are present,
`configured` is not `False`, and both username and password are truthy. -/
def credFull (uc : Option UserCredentials) : Bool :=
  match uc with
  | none => false
  | some c =>
      decide (c.configured ≠ some false) && pyTruthyStr c.username &&
        pyTruthyStr c.password

/-- The guard for emitting user-specific run commands
(src/services/cloud_init_generator.py lines 66-68): unlike `credFull` it does
NOT require a truthy password. -/
def credUser (uc : Option UserCredentials) : Bool :=
  match uc with
  | none => false
  | some c => decide (c.configured ≠ some false) && pyTruthyStr c.username

/-- Python's rendering of an optional string inside an f-string: `None`
prints as `"None"`. -/
def pyShow : Option String → String
  | none => "None"
  | some s => s

/-- The `users:` entry built at src/services/cloud_init_generator.py
lines 44-62.  `isRocky` selects the wheel/sudo group variants and the extra
Rocky-only fields. -/
structure CloudInitUser where
  name : String
  plain_text_passwd : String
  isRocky : Bool
  deriving Repr, DecidableEq

/-- A `write_files` entry. -/
structure WriteFile where
  content : String
  path : String
  deriving Repr, DecidableEq

/-- Rocky-specific user-creation command block
(src/services/cloud_init_generator.py lines 72-114), with the username and
(Python-rendered) password interpolated. -/
def rockyUserCommands (username password : String) : List String :=
  ["# CRITICAL: Force " ++ username ++ " user creation immediately (Rocky Linux compatibility)",
   "echo \"=== EMERGENCY USER CREATION ===\" | tee -a /var/log/cloud-init-userdata.log",
   "if ! id " ++ username ++ " >/dev/null 2>&1; then",
   "  echo \"Cloud-init user creation appears to have failed. Creating " ++ username ++ " user manually NOW...\" | tee -a /var/log/cloud-init-userdata.log",
   "  useradd -m -s /bin/bash " ++ username ++ " 2>&1 | tee -a /var/log/cloud-init-userdata.log || echo \"ERROR: useradd failed\" | tee -a /var/log/cloud-init-userdata.log",
   "  echo \"" ++ username ++ ":" ++ password ++ "\" | chpasswd 2>&1 | tee -a /var/log/cloud-init-userdata.log || echo \"ERROR: chpasswd failed\" | tee -a /var/log/cloud-init-userdata.log",
   "  usermod -aG wheel " ++ username ++ " 2>&1 | tee -a /var/log/cloud-init-userdata.log || echo \"ERROR: usermod wheel failed\" | tee -a /var/log/cloud-init-userdata.log",
   "  id " ++ username ++ " 2>&1 | tee -a /var/log/cloud-init-userdata.log",
   "  echo \"Emergency user creation completed\" | tee -a /var/log/cloud-init-userdata.log",
   "else",
   "  echo \"GOOD: " ++ username ++ " user exists, skipping emergency creation\" | tee -a /var/log/cloud-init-userdata.log",
   "fi",
   "systemctl enable sshd 2>&1 | tee -a /var/log/cloud-init-userdata.log",
   "systemctl start sshd 2>&1 | tee -a /var/log/cloud-init-userdata.log",
   "# Ensure wheel group has sudo privileges for " ++ username ++ " user",
   "echo \"%wheel ALL=(ALL) NOPASSWD: ALL\" | tee /etc/sudoers.d/wheel",
   "chmod 0440 /etc/sudoers.d/wheel",
   "# Enhanced " ++ username ++ " user creation for Rocky Linux with comprehensive debugging",
   "echo \"=== User Creation Debug Information ===\" | tee -a /var/log/cloud-init-userdata.log",
   "echo \"OS Type: Rocky/RHEL/CentOS detected\" | tee -a /var/log/cloud-init-userdata.log",
   "echo \"Available groups:\" | tee -a /var/log/cloud-init-userdata.log",
   "getent group wheel docker 2>&1 | tee -a /var/log/cloud-init-userdata.log",
   "echo \"Checking if " ++ username ++ " user exists...\" | tee -a /var/log/cloud-init-userdata.log",
   "if id " ++ username ++ " >/dev/null 2>&1; then echo \"GOOD: " ++ username ++ " user already exists from cloud-init\" | tee -a /var/log/cloud-init-userdata.log; else echo \"WARNING: " ++ username ++ " user not found, creating manually...\" | tee -a /var/log/cloud-init-userdata.log; fi",
   "if ! id " ++ username ++ " >/dev/null 2>&1; then",
   "  echo \"Step 1: Creating " ++ username ++ " user with useradd...\" | tee -a /var/log/cloud-init-userdata.log",
   "  useradd -m -s /bin/bash " ++ username ++ " 2>&1 | tee -a /var/log/cloud-init-userdata.log",
   "  echo \"Step 2: Setting password for " ++ username ++ " user...\" | tee -a /var/log/cloud-init-userdata.log",
   "  echo \"" ++ username ++ ":" ++ password ++ "\" | chpasswd 2>&1 | tee -a /var/log/cloud-init-userdata.log",
   "  echo \"Step 3: Adding " ++ username ++ " to wheel group...\" | tee -a /var/log/cloud-init-userdata.log",
   "  usermod -aG wheel " ++ username ++ " 2>&1 | tee -a /var/log/cloud-init-userdata.log",
   "  echo \"Step 4: Adding " ++ username ++ " to docker group (if exists)...\" | tee -a /var/log/cloud-init-userdata.log",
   "  getent group docker >/dev/null && usermod -aG docker " ++ username ++ " 2>&1 | tee -a /var/log/cloud-init-userdata.log || echo \"Docker group not found, skipping...\" | tee -a /var/log/cloud-init-userdata.log",
   "  echo \"Manual user creation completed\" | tee -a /var/log/cloud-init-userdata.log",
   "fi",
   "# Final verification of " ++ username ++ " user",
   "echo \"=== Final User Verification ===\" | tee -a /var/log/cloud-init-userdata.log",
   "id " ++ username ++ " 2>&1 | tee -a /var/log/cloud-init-userdata.log || echo \"ERROR: " ++ username ++ " user still not found!\" | tee -a /var/log/cloud-init-userdata.log",
   "groups " ++ username ++ " 2>&1 | tee -a /var/log/cloud-init-userdata.log || echo \"ERROR: cannot check " ++ username ++ " user groups\" | tee -a /var/log/cloud-init-userdata.log",
   "getent passwd " ++ username ++ " 2>&1 | tee -a /var/log/cloud-init-userdata.log || echo \"ERROR: " ++ username ++ " user not in passwd database\" | tee -a /var/log/cloud-init-userdata.log",
   "echo \"Rocky Linux base configuration completed\" | tee -a /var/log/cloud-init-userdata.log"]

/-- Ubuntu-specific user verification command block
(src/services/cloud_init_generator.py lines 116-123). -/
def ubuntuUserCommands (username : String) : List String :=
  ["systemctl enable ssh 2>&1 | tee -a /var/log/cloud-init-userdata.log",
   "systemctl start ssh 2>&1 | tee -a /var/log/cloud-init-userdata.log",
   "# Verify " ++ username ++ " user was created with correct groups",
   "id " ++ username ++ " 2>&1 | tee -a /var/log/cloud-init-userdata.log || echo \"WARNING: " ++ username ++ " user not found\" | tee -a /var/log/cloud-init-userdata.log",
   "groups " ++ username ++ " 2>&1 | tee -a /var/log/cloud-init-userdata.log || echo \"WARNING: cannot check " ++ username ++ " user groups\" | tee -a /var/log/cloud-init-userdata.log",
   "echo \"Ubuntu base configuration completed\" | tee -a /var/log/cloud-init-userdata.log"]

/-- No-user command block (src/services/cloud_init_generator.py
lines 126-137). -/
def noUserCommands (isRocky : Bool) : List String :=
  if isRocky then
    ["systemctl enable sshd 2>&1 | tee -a /var/log/cloud-init-userdata.log",
     "systemctl start sshd 2>&1 | tee -a /var/log/cloud-init-userdata.log",
     "echo \"Rocky Linux base configuration completed (no user configured)\" | tee -a /var/log/cloud-init-userdata.log"]
  else
    ["systemctl enable ssh 2>&1 | tee -a /var/log/cloud-init-userdata.log",
     "systemctl start ssh 2>&1 | tee -a /var/log/cloud-init-userdata.log",
     "echo \"Ubuntu base configuration completed (no user configured)\" | tee -a /var/log/cloud-init-userdata.log"]

/-- The user-specific run-command segment
(src/services/cloud_init_generator.py lines 64-137). -/
def userSpecificCommands (isRocky : Bool) (uc : Option UserCredentials) :
    List String :=
  if credUser uc then
    let c := (uc.getD {})
    if isRocky then rockyUserCommands (pyShow c.username) (pyShow c.password)
    else ubuntuUserCommands (pyShow c.username)
  else
    noUserCommands isRocky

/-- `/etc/sysctl.d/99-weka.conf` content
(src/services/cloud_init_generator.py lines 142-154). -/
def wekaSysctlContent : String :=
  "# installed from platform cloud-init\n" ++
  "kernel.numa_balancing=0\n" ++
  "kernel.softlockup_all_cpu_backtrace=1\n" ++
  "kernel.panic = 300\n" ++
  "net.ipv4.conf.all.arp_announce = 2\n" ++
  "net.ipv4.conf.all.arp_filter = 1\n" ++
  "net.ipv4.conf.all.arp_ignore = 1\n" ++
  "net.ipv4.conf.default.arp_announce = 2\n" ++
  "net.ipv4.conf.default.arp_filter = 1\n" ++
  "net.ipv4.conf.default.arp_ignore = 1\n" ++
  "net.ipv4.conf.all.ignore_routes_with_linkdown = 1\n" ++
  "net.ipv4.conf.default.ignore_routes_with_linkdown = 1\n"

/-- Base run commands (src/services/cloud_init_generator.py lines 160-179). -/
def baseCommands (isRocky : Bool) : List String :=
  ["mkdir -p /var/log",
   "touch /var/log/cloud-init-userdata.log /var/log/maas-deployment.log",
   "chmod 644 /var/log/cloud-init-userdata.log /var/log/maas-deployment.log",
   "echo \"=== MAAS Cloud-Init Deployment Started at $(date) ===\" | tee -a /var/log/cloud-init-userdata.log",
   "echo \"MAAS deployment started at $(date)\" | tee /var/log/maas-deployment.log",
   "echo \"Configuring " ++ (if isRocky then "Rocky Linux" else "Ubuntu") ++ " system...\" | tee -a /var/log/cloud-init-userdata.log",
   "# Enable and configure additional system services",
   "systemctl enable lldpd 2>&1 | tee -a /var/log/cloud-init-userdata.log || true",
   "systemctl start lldpd 2>&1 | tee -a /var/log/cloud-init-userdata.log || true",
   "# Configure kdump/kexec if available",
   (if isRocky then "systemctl enable kdump 2>&1 | tee -a /var/log/cloud-init-userdata.log || true"
    else "systemctl enable kdump-tools 2>&1 | tee -a /var/log/cloud-init-userdata.log || true"),
   "# Enable SMART monitoring",
   "systemctl enable smartd 2>&1 | tee -a /var/log/cloud-init-userdata.log || true",
   "systemctl start smartd 2>&1 | tee -a /var/log/cloud-init-userdata.log || true",
   "# Apply sysctl configuration",
   "sysctl -p /etc/sysctl.d/99-weka.conf 2>&1 | tee -a /var/log/cloud-init-userdata.log",
   "echo \"Weka sysctl configuration applied\" | tee -a /var/log/cloud-init-userdata.log",
   "echo \"Additional system tools configured\" | tee -a /var/log/cloud-init-userdata.log"]

/-- The cloud-init document assembled by the generator (the `config` dict of
`generate_base_cloud_init`, later extended by `merge_configurations` and
`generate_machine_cloud_init`).  Keys are listed in Python insertion order:
packages, ssh_pwauth, disable_root, (users), write_files, runcmd, and for the
final per-machine document also hostname and final_message. -/
structure ConfigDoc where
  packages : List String
  ssh_pwauth : Bool := true
  disable_root : Bool := false
  users : Option CloudInitUser := none
  write_files : List WriteFile := []
  runcmd : List String := []
  hostname : Option String := none
  final_message : Option String := none
  deriving Repr, DecidableEq

/-- `generate_base_cloud_init`
(src/services/cloud_init_generator.py lines 9-183). -/
def generateBaseCloudInit (os_type : String) (uc : Option UserCredentials) :
    ConfigDoc :=
  let isRocky := isRockyOsType os_type
  { packages := if isRocky then rockyPackages else ubuntuPackages
    ssh_pwauth := true
    disable_root := false
    users :=
      if credFull uc then
        some { name := pyShow ((uc.getD {}).username)
               plain_text_passwd := pyShow ((uc.getD {}).password)
               isRocky := isRocky }
      else none
    write_files := [{ content := wekaSysctlContent
                      path := "/etc/sysctl.d/99-weka.conf" }]
    runcmd := baseCommands isRocky ++ userSpecificCommands isRocky uc }

/-- The three accumulator lists of `generate_tag_based_enhancements`
(src/services/cloud_init_generator.py lines 186-411). -/
structure Enhancements where
  packages : List String := []
  runcmd : List String := []
  write_files : List WriteFile := []
  deriving Repr, DecidableEq

/-- The DOCA installation script (src/services/cloud_init_generator.py
lines 289-364).  Shell parameter braces are written with `\x7b`/`\x7d`
escapes. -/
def docaScript : String :=
  "#!/bin/bash\n" ++
  "set -e\n" ++
  "echo \"Starting DOCA installation\" | tee -a /var/log/cloud-init-userdata.log /var/log/maas-deployment.log\n" ++
  "cd /tmp\n" ++
  "\n" ++
  "# Detect OS\n" ++
  "echo \"=== OS Detection for DOCA ===\" | tee -a /var/log/cloud-init-userdata.log /var/log/maas-deployment.log\n" ++
  "if [ -f /etc/os-release ]; then\n" ++
  "    source /etc/os-release\n" ++
  "    OS_NAME=$ID\n" ++
  "    OS_VERSION=$VERSION_ID\n" ++
  "    OS_MAJOR_VERSION=$\x7bVERSION_ID%%.*\x7d\n" ++
  "    echo \"Detected OS: $OS_NAME $OS_VERSION (Major: $OS_MAJOR_VERSION)\" | tee -a /var/log/cloud-init-userdata.log /var/log/maas-deployment.log\n" ++
  "else\n" ++
  "    echo \"Cannot detect OS, defaulting to Ubuntu 22.04\" | tee -a /var/log/cloud-init-userdata.log /var/log/maas-deployment.log\n" ++
  "    OS_NAME=\"ubuntu\"\n" ++
  "    OS_VERSION=\"22.04\"\n" ++
  "    OS_MAJOR_VERSION=\"22\"\n" ++
  "fi\n" ++
  "\n" ++
  "# Install DOCA based on OS\n" ++
  "echo \"Installing DOCA for $OS_NAME $OS_VERSION...\" | tee -a /var/log/cloud-init-userdata.log /var/log/maas-deployment.log\n" ++
  "\n" ++
  "if [[ \"$OS_NAME\" == \"ubuntu\" ]]; then\n" ++
  "    # Ubuntu DOCA installation\n" ++
  "    echo \"Setting up DOCA for Ubuntu...\" | tee -a /var/log/cloud-init-userdata.log /var/log/maas-deployment.log\n" ++
  "    \n" ++
  "    # Determine repository based on version (use 22.04 repo for 24.04 compatibility)\n" ++
  "    if [[ \"$OS_VERSION\" == \"20.04\" ]]; then\n" ++
  "        DOCA_REPO_URL=\"https://linux.mellanox.com/public/repo/doca/3.1.0/ubuntu20.04/x86_64/\"\n" ++
  "    else\n" ++
  "        # Use 22.04 repo for 22.04, 24.04, and unknown versions\n" ++
  "        DOCA_REPO_URL=\"https://linux.mellanox.com/public/repo/doca/3.1.0/ubuntu22.04/x86_64/\"\n" ++
  "    fi\n" ++
  "    \n" ++
  "    echo \"Using DOCA repository: $DOCA_REPO_URL\" | tee -a /var/log/cloud-init-userdata.log /var/log/maas-deployment.log\n" ++
  "    \n" ++
  "    # Install DOCA step by step\n" ++
  "    echo \"Step 1: Adding Mellanox GPG key...\" | tee -a /var/log/cloud-init-userdata.log /var/log/maas-deployment.log\n" ++
  "    curl -fsSL https://linux.mellanox.com/public/repo/doca/GPG-KEY-Mellanox.pub | gpg --dearmor > /etc/apt/trusted.gpg.d/GPG-KEY-Mellanox.pub || exit 1\n" ++
  "    \n" ++
  "    echo \"Step 2: Adding DOCA repository...\" | tee -a /var/log/cloud-init-userdata.log /var/log/maas-deployment.log\n" ++
  "    echo \"deb [signed-by=/etc/apt/trusted.gpg.d/GPG-KEY-Mellanox.pub] $DOCA_REPO_URL ./\" > /etc/apt/sources.list.d/doca.list || exit 1\n" ++
  "    \n" ++
  "    echo \"Step 3: Updating package lists...\" | tee -a /var/log/cloud-init-userdata.log /var/log/maas-deployment.log\n" ++
  "    apt-get update 2>&1 | tee -a /var/log/cloud-init-userdata.log || exit 1\n" ++
  "    \n" ++
  "    echo \"Step 4: Installing doca-all package...\" | tee -a /var/log/cloud-init-userdata.log /var/log/maas-deployment.log\n" ++
  "    apt-get -y install doca-all 2>&1 | tee -a /var/log/cloud-init-userdata.log || exit 1\n" ++
  "    \n" ++
  "elif [[ \"$OS_NAME\" == \"rocky\" || \"$OS_NAME\" == \"rhel\" || \"$OS_NAME\" == \"centos\" ]]; then\n" ++
  "    # Rocky/RHEL DOCA installation\n" ++
  "    echo \"Setting up DOCA for $OS_NAME $OS_MAJOR_VERSION...\" | tee -a /var/log/cloud-init-userdata.log /var/log/maas-deployment.log\n" ++
  "    \n" ++
  "    # Create DOCA repository configuration\n" ++
  "    cat > /etc/yum.repos.d/doca.repo << EOF\n" ++
  "[doca]\n" ++
  "name=DOCA Online Repo\n" ++
  "baseurl=https://linux.mellanox.com/public/repo/doca/3.1.0/rhel$\x7bOS_MAJOR_VERSION\x7d.0/x86_64/\n" ++
  "enabled=1\n" ++
  "gpgcheck=0\n" ++
  "EOF\n" ++
  "    \n" ++
  "    echo \"Step 1: Cleaning package cache...\" | tee -a /var/log/cloud-init-userdata.log /var/log/maas-deployment.log\n" ++
  "    dnf clean all 2>&1 | tee -a /var/log/cloud-init-userdata.log || exit 1\n" ++
  "    \n" ++
  "    echo \"Step 2: Installing doca-ofed package...\" | tee -a /var/log/cloud-init-userdata.log /var/log/maas-deployment.log\n" ++
  "    dnf -y install doca-ofed 2>&1 | tee -a /var/log/cloud-init-userdata.log || exit 1\n" ++
  "    \n" ++
  "else\n" ++
  "    echo \"OS $OS_NAME not supported for DOCA installation\" | tee -a /var/log/cloud-init-userdata.log /var/log/maas-deployment.log\n" ++
  "    exit 1\n" ++
  "fi\n" ++
  "\n" ++
  "echo \"DOCA installation completed successfully\" | tee -a /var/log/cloud-init-userdata.log /var/log/maas-deployment.log\n"

/-- `generate_tag_based_enhancements`
(src/services/cloud_init_generator.py lines 186-411).  The Python code
mutates three accumulator lists while walking the rule blocks top to bottom;
the model concatenates each rule's contribution per list in the same
declaration order. -/
def generateTagBasedEnhancements (tags : List String) (os_type : String) :
    Enhancements :=
  if tags = [] then {} else
  let isRocky := isRockyOsType os_type
  let connectxTags := tags.filter
    (fun t => strContainsB (pyLower t) "connectx" || strContainsB (pyLower t) "mellanox")
  let docaTags := tags.filter (fun t => strContainsB (pyLower t) "doca")
  let intelNicTags := tags.filter
    (fun t => strContainsB (pyLower t) "intel" &&
      (strContainsB (pyLower t) "nic" || strContainsB (pyLower t) "ethernet"))
  let broadcomEnhanced :=
    tags.contains "bcm57508" || tags.any (fun t => strContainsB (pyLower t) "broadcom")
  let serialConsole :=
    tags.contains "serial_console" || tags.contains "needs_serial_console_deploy"
  { packages :=
      (if tags.contains "high-cpu" then
        (if isRocky then ["kernel-tools"] else ["cpufrequtils", "linux-tools-generic"]) else []) ++
      (if tags.contains "bcm57508" then ["ethtool"] else []) ++
      (if tags.contains "amd64-arch" then ["amd64-microcode"] else []) ++
      (if tags.contains "virtual" then ["qemu-guest-agent", "open-vm-tools"] else []) ++
      (if docaTags ≠ [] then
        (if isRocky then ["gcc", "kernel-devel", "kernel-headers", "wget", "python3-pip", "curl", "rpm-build"]
         else ["build-essential", "linux-headers-generic", "wget", "python3-pip", "curl"]) else []) ++
      (if intelNicTags ≠ [] then
        (if isRocky then ["gcc", "kernel-devel", "kernel-headers"]
         else ["build-essential", "linux-headers-generic"]) else []) ++
      (if broadcomEnhanced then
        (if isRocky then ["ethtool", "gcc", "kernel-devel", "kernel-headers"]
         else ["ethtool", "build-essential", "linux-headers-generic"]) else [])
    runcmd :=
      (if tags.contains "high-cpu" then
        ["echo \"=== High-CPU Optimizations ===\" | tee -a /var/log/cloud-init-userdata.log",
         "echo \"performance\" | tee /sys/devices/system/cpu/cpu*/cpufreq/scaling_governor 2>&1 | tee -a /var/log/cloud-init-userdata.log",
         "echo \"High-CPU optimizations applied\" | tee -a /var/log/cloud-init-userdata.log /var/log/maas-deployment.log"] else []) ++
      (if tags.contains "high-memory" then
        ["echo \"=== High-Memory Optimizations ===\" | tee -a /var/log/cloud-init-userdata.log",
         "echo \"vm.swappiness=1\" >> /etc/sysctl.conf 2>&1 | tee -a /var/log/cloud-init-userdata.log",
         "echo \"vm.vfs_cache_pressure=50\" >> /etc/sysctl.conf 2>&1 | tee -a /var/log/cloud-init-userdata.log",
         "echo \"High-memory optimizations applied\" | tee -a /var/log/cloud-init-userdata.log /var/log/maas-deployment.log"] else []) ++
      (if tags.contains "bcm57508" then
        ["echo \"=== Broadcom BCM57508 Configuration ===\" | tee -a /var/log/cloud-init-userdata.log",
         "modprobe bnxt_en 2>&1 | tee -a /var/log/cloud-init-userdata.log",
         "echo \"Broadcom BCM57508 network driver loaded\" | tee -a /var/log/cloud-init-userdata.log /var/log/maas-deployment.log"] else []) ++
      (if tags.contains "amd64-arch" then
        ["echo \"=== AMD64 Architecture Optimizations ===\" | tee -a /var/log/cloud-init-userdata.log",
         "echo \"AMD64 microcode updates enabled\" | tee -a /var/log/cloud-init-userdata.log /var/log/maas-deployment.log"] else []) ++
      (if tags.contains "virtual" then
        ["echo \"=== Virtual Machine Configuration ===\" | tee -a /var/log/cloud-init-userdata.log",
         "systemctl enable qemu-guest-agent 2>&1 | tee -a /var/log/cloud-init-userdata.log",
         "echo \"Virtual machine tools configured\" | tee -a /var/log/cloud-init-userdata.log /var/log/maas-deployment.log"] else []) ++
      (if serialConsole then
        ["echo \"=== Serial Console Configuration ===\" | tee -a /var/log/cloud-init-userdata.log",
         "systemctl enable serial-getty@ttyS0.service 2>&1 | tee -a /var/log/cloud-init-userdata.log",
         "systemctl start serial-getty@ttyS0.service 2>&1 | tee -a /var/log/cloud-init-userdata.log",
         "echo \"Serial console configured\" | tee -a /var/log/cloud-init-userdata.log /var/log/maas-deployment.log"] else []) ++
      (if tags.contains "nvme_core" then
        ["echo \"=== NVME Configuration ===\" | tee -a /var/log/cloud-init-userdata.log",
         "echo \"NVME multipath disabled as configured\" | tee -a /var/log/cloud-init-userdata.log /var/log/maas-deployment.log"] else []) ++
      (if connectxTags ≠ [] then
        ["echo \"=== ConnectX NIC Driver Loading ===\" | tee -a /var/log/cloud-init-userdata.log",
         "modprobe mlx5_core 2>&1 | tee -a /var/log/cloud-init-userdata.log || true",
         "modprobe mlx5_ib 2>&1 | tee -a /var/log/cloud-init-userdata.log || true",
         "echo \"ConnectX NIC drivers loaded\" | tee -a /var/log/cloud-init-userdata.log /var/log/maas-deployment.log"] else []) ++
      (if docaTags ≠ [] then
        ["echo \"=== DOCA Installation ===\" | tee -a /var/log/cloud-init-userdata.log",
         "chmod +x /tmp/install_doca.sh 2>&1 | tee -a /var/log/cloud-init-userdata.log",
         "/tmp/install_doca.sh 2>&1 | tee -a /var/log/cloud-init-userdata.log"] else []) ++
      (if intelNicTags ≠ [] then
        ["echo \"=== Intel NIC Drivers Installation ===\" | tee -a /var/log/cloud-init-userdata.log",
         "modprobe e1000e 2>&1 | tee -a /var/log/cloud-init-userdata.log || true",
         "modprobe igb 2>&1 | tee -a /var/log/cloud-init-userdata.log || true",
         "modprobe ixgbe 2>&1 | tee -a /var/log/cloud-init-userdata.log || true",
         "modprobe i40e 2>&1 | tee -a /var/log/cloud-init-userdata.log || true",
         "modprobe ice 2>&1 | tee -a /var/log/cloud-init-userdata.log || true",
         "echo \"Intel NIC drivers loaded\" | tee -a /var/log/cloud-init-userdata.log /var/log/maas-deployment.log"] else []) ++
      (if broadcomEnhanced then
        ["echo \"=== Broadcom NIC Drivers Installation ===\" | tee -a /var/log/cloud-init-userdata.log",
         "modprobe bnxt_en 2>&1 | tee -a /var/log/cloud-init-userdata.log",
         "modprobe tg3 2>&1 | tee -a /var/log/cloud-init-userdata.log || true",
         "echo \"Broadcom NIC drivers loaded\" | tee -a /var/log/cloud-init-userdata.log /var/log/maas-deployment.log"] else [])
    write_files :=
      (if tags.contains "nvme_core" then
        [{ content := "nvme_core.multipath=N\n", path := "/etc/modprobe.d/nvme.conf" }] else []) ++
      (if docaTags ≠ [] then
        [{ content := docaScript, path := "/tmp/install_doca.sh" }] else []) }

/-! ### Configuration merging (src/services/cloud_init_generator.py
lines 414-449) -/

/-- Python `s.replace(pat, rep, 1)` on character lists (first occurrence
only; with an empty pattern Python prepends `rep`, which never arises here
because the pattern is always `"- "`). -/
def replaceFirstL (pat rep : List Char) : List Char → List Char
  | [] => []
  | c :: rest =>
      if pat ≠ [] ∧ pat <+: (c :: rest) then rep ++ (c :: rest).drop pat.length
      else c :: replaceFirstL pat rep rest

/-- Python `s.replace(pat, rep, 1)`. -/
def pyReplaceFirst (s pat rep : String) : String :=
  ⟨replaceFirstL pat.data rep.data s.data⟩

/-- The stripped non-empty snippet lines
(src/services/cloud_init_generator.py line 437). -/
def userLines (user_config : String) : List String :=
  ((pySplitNL user_config).map pyStrip).filter (fun l => l ≠ "")

/-- The conservative snippet filter (src/services/cloud_init_generator.py
lines 438-439): keep lines that start with `"- "` and contain neither
`"echo"` nor `"systemctl"`. -/
def isSafeUserLine (l : String) : Bool :=
  decide (pyStartsWith l "- ") && !strContainsB l "echo" && !strContainsB l "systemctl"

/-- `user_commands` (src/services/cloud_init_generator.py lines 438-439). -/
def userCommands (user_config : String) : List String :=
  (userLines user_config).filter isSafeUserLine

/-- The run commands appended for the user snippet
(src/services/cloud_init_generator.py lines 434-447).  When no safe command
survives the filter nothing is appended (this also covers the
`user_config.strip()` falsy guard, since a whitespace-only snippet yields no
lines).  The `except` branch that would add a `# User provided config:`
comment is unreachable: the operations in the `try` block cannot raise. -/
def userRuncmd (user_config : String) : List String :=
  if userCommands user_config = [] then []
  else "# User-provided commands:" ::
    (userCommands user_config).map (fun cmd => pyReplaceFirst cmd "- " "")

/-- `merge_configurations`
(src/services/cloud_init_generator.py lines 414-449).  The truthiness guards
on `enhancements['packages']`/`['runcmd']`/`['write_files']` are dropped:
extending by an empty list is the identity. -/
def mergeConfigurations (base : ConfigDoc) (enh : Enhancements)
    (user_config : String) : ConfigDoc :=
  { base with
    packages := base.packages ++ enh.packages
    runcmd := base.runcmd ++ enh.runcmd ++ userRuncmd user_config
    write_files := base.write_files ++ enh.write_files }

/-! ### Per-machine document assembly and rendering
(src/services/cloud_init_generator.py lines 452-594) -/

/-- `machine.get("hostname") or machine.get("fqdn") or machine["system_id"]`
(Python `or` falls through on `None` and `""`). -/
def Machine.displayName (m : Machine) : String :=
  pyOrStr m.hostname (pyOrStr m.fqdn m.system_id)

/-- f-string rendering of `machine.get("cpu_count", "unknown")`. -/
def showCpu : Option Nat → String
  | none => "unknown"
  | some n => toString n

/-- `math.ceil(machine.get("memory", 0) / 1024)` in whole GB. -/
def memoryGB (mem : Option Nat) : Nat := (mem.getD 0 + 1023) / 1024

/-- `", ".join(machine_tags) if machine_tags else "none"`. -/
def tagsDisplay (tags : List String) : String :=
  if tags = [] then "none" else String.intercalate ", " tags

/-- The machine-specific run commands prepended at
src/services/cloud_init_generator.py lines 466-474. -/
def machineSpecificCmds (m : Machine) : List String :=
  ["echo \"=== Machine-Specific Configuration ===\" | tee -a /var/log/cloud-init-userdata.log /var/log/maas-deployment.log",
   "echo \"Machine-specific deployment for " ++ m.displayName ++ "\" | tee -a /var/log/cloud-init-userdata.log /var/log/maas-deployment.log",
   "echo \"System ID: " ++ m.system_id ++ "\" | tee -a /var/log/cloud-init-userdata.log /var/log/maas-deployment.log",
   "echo \"Architecture: " ++ m.architecture.getD "unknown" ++ "\" | tee -a /var/log/cloud-init-userdata.log /var/log/maas-deployment.log",
   "echo \"CPU Cores: " ++ showCpu m.cpu_count ++ "\" | tee -a /var/log/cloud-init-userdata.log /var/log/maas-deployment.log",
   "echo \"Memory: " ++ toString (memoryGB m.memory) ++ " GB\" | tee -a /var/log/cloud-init-userdata.log /var/log/maas-deployment.log",
   "echo \"Machine Tags: " ++ tagsDisplay m.tag_names ++ "\" | tee -a /var/log/cloud-init-userdata.log /var/log/maas-deployment.log"]

/-- The completion commands appended at
src/services/cloud_init_generator.py lines 494-498. -/
def completionCmds : List String :=
  ["echo \"=== MAAS Cloud-Init Deployment Completed at $(date) ===\" | tee -a /var/log/cloud-init-userdata.log /var/log/maas-deployment.log",
   "echo \"All user-data logs saved to /var/log/cloud-init-userdata.log\" | tee -a /var/log/maas-deployment.log",
   "echo \"Final user verification:\" | tee -a /var/log/cloud-init-userdata.log"]

/-- The final user-verification command
(src/services/cloud_init_generator.py lines 500-504). -/
def userVerificationCmd (users : Option CloudInitUser) : String :=
  match users with
  | some u =>
      "id " ++ u.name ++ " | tee -a /var/log/cloud-init-userdata.log || echo \"ERROR: " ++
        u.name ++ " user not created!\" | tee -a /var/log/cloud-init-userdata.log"
  | none => "echo \"No user configured for this deployment\" | tee -a /var/log/cloud-init-userdata.log"

/-- The header comment block (src/services/cloud_init_generator.py
lines 482-491), as lines; `now` is `datetime.now().isoformat()`.  The
template ends with a blank line. -/
def headerLines (m : Machine) (now : String) : List String :=
  ["#cloud-config",
   "# Auto-generated configuration for MAAS deployment",
   "# Machine: " ++ m.displayName,
   "# System ID: " ++ m.system_id,
   "# Architecture: " ++ m.architecture.getD "unknown",
   "# CPU: " ++ showCpu m.cpu_count ++ " cores, Memory: " ++ toString (memoryGB m.memory) ++ " GB",
   "# Machine tags: " ++ tagsDisplay m.tag_names,
   "# Generated at: " ++ now,
   ""]

/-- Line rendering of the `users:` entry in Python dict insertion order
(src/services/cloud_init_generator.py lines 44-60): Rocky uses the list
form of `sudo`, the `wheel` group, and three extra fields. -/
def yamlUserLines (u : CloudInitUser) : List String :=
  ["- name: " ++ u.name,
   "  plain_text_passwd: " ++ u.plain_text_passwd] ++
  (if u.isRocky then ["  sudo:", "  - ALL=(ALL) NOPASSWD:ALL"]
   else ["  sudo: ALL=(ALL) NOPASSWD:ALL"]) ++
  ["  shell: /bin/bash", "  groups:"] ++
  (if u.isRocky then ["  - wheel", "  - docker"] else ["  - sudo", "  - docker"]) ++
  ["  lock_passwd: false"] ++
  (if u.isRocky then
    ["  ssh_authorized_keys: []", "  system: false", "  create_user_group: true"]
   else [])

/-- Line rendering of one `write_files` entry (content as a literal block;
the dict lists `content` before `path`). -/
def yamlWriteFileLines (wf : WriteFile) : List String :=
  ["- content: |-"] ++ (pySplitNL wf.content).map (fun l => "    " ++ l) ++
  ["  path: " ++ wf.path]

/-- Simplified model of `yaml.dump(final_config, default_flow_style=False,
sort_keys=False)`: block style, keys in Python insertion order, scalars
emitted verbatim (the simplification: PyYAML's scalar-quoting rules are not
reproduced).  The result is a list of lines, each later terminated by
`'\n'`. -/
def yamlDumpLines (doc : ConfigDoc) : List String :=
  ["packages:"] ++ doc.packages.map (fun p => "- " ++ p) ++
  ["ssh_pwauth: " ++ (if doc.ssh_pwauth then "true" else "false"),
   "disable_root: " ++ (if doc.disable_root then "true" else "false")] ++
  (match doc.users with
   | some u => "users:" :: yamlUserLines u
   | none => []) ++
  ["write_files:"] ++ (doc.write_files.map yamlWriteFileLines).flatten ++
  ["runcmd:"] ++ doc.runcmd.map (fun c => "- " ++ c) ++
  (match doc.hostname with
   | some h => ["hostname: " ++ h]
   | none => []) ++
  (match doc.final_message with
   | some msg => ["final_message: " ++ msg]
   | none => [])

/-- The hostname written into the cloud-init document
(src/services/cloud_init_generator.py line 479): hostname, else fqdn, else
`maas-` plus the last eight characters of the system id. -/
def Machine.ciHostname (m : Machine) : String :=
  pyOrStr m.hostname
    (pyOrStr m.fqdn ("maas-" ++ ⟨m.system_id.data.drop (m.system_id.data.length - 8)⟩))

/-- The final per-machine document (the `final_config` dict at the end of
`generate_machine_cloud_init`, src/services/cloud_init_generator.py
lines 452-506). -/
def machineFinalDoc (m : Machine) (user_config os_type : String)
    (uc : Option UserCredentials) : ConfigDoc :=
  let base := generateBaseCloudInit os_type uc
  let enh := generateTagBasedEnhancements m.tag_names os_type
  let merged := mergeConfigurations base enh user_config
  { merged with
    runcmd := machineSpecificCmds m ++ merged.runcmd ++ completionCmds ++
      [userVerificationCmd merged.users]
    hostname := some m.ciHostname
    final_message := some ("MAAS deployment completed successfully for " ++
      m.ciHostname ++ " with Weka configurations") }

/-- All lines of the rendered per-machine configuration: header block plus
serialized document. -/
def machineConfigLines (m : Machine) (user_config os_type : String)
    (uc : Option UserCredentials) (now : String) : List String :=
  headerLines m now ++ yamlDumpLines (machineFinalDoc m user_config os_type uc)

/-- The return value of `generate_machine_cloud_init`
(src/services/cloud_init_generator.py lines 511-516). -/
structure MachineCloudInit where
  config : String
  machine : Machine
  tags : List String
  hasEnhancements : Bool
  deriving Repr

/-- `generate_machine_cloud_init`
(src/services/cloud_init_generator.py lines 452-516). -/
def generateMachineCloudInit (m : Machine) (user_config os_type : String)
    (uc : Option UserCredentials) (now : String) : MachineCloudInit :=
  let enh := generateTagBasedEnhancements m.tag_names os_type
  { config := unlines (machineConfigLines m user_config os_type uc now)
    machine := m
    tags := m.tag_names
    hasEnhancements := enh.packages ≠ [] || enh.runcmd ≠ [] || enh.write_files ≠ [] }

/-- `get_machine_cloud_init`
(src/services/cloud_init_generator.py lines 591-594): the deployment entry
point; it passes NO credentials to the generator (the `user_credentials`
parameter keeps its `None` default). -/
def getMachineCloudInit (m : Machine) (user_config os_type : String)
    (now : String) : String :=
  (generateMachineCloudInit m user_config os_type none now).config

/-! ### Display sanitizing and the batch entry point
(src/services/cloud_init_generator.py lines 519-588) -/

/-- Python `s.replace(pat, rep)` on character lists: non-overlapping
occurrences are replaced left to right.  (With an empty pattern Python
interleaves `rep` everywhere; the program only ever replaces the non-empty
pattern `"plain_text_passwd: …"`, and the model leaves the string unchanged
in that unreachable case.) -/
def replaceAllL (pat rep : List Char) : List Char → List Char
  | [] => []
  | c :: rest =>
      if pat ≠ [] ∧ pat <+: (c :: rest) then
        rep ++ replaceAllL pat rep ((c :: rest).drop pat.length)
      else c :: replaceAllL pat rep rest
  termination_by l => l.length
  decreasing_by
    · rename_i h
      have hne : 0 < pat.length := List.length_pos.mpr h.1
      simp only [List.length_drop, List.length_cons]
      omega
    · simp

/-- Python `s.replace(pat, rep)`. -/
def pyReplaceAll (s pat rep : String) : String :=
  ⟨replaceAllL pat.data rep.data s.data⟩

/-- The fixed redaction marker substituted for the password. -/
def hiddenMarker : String := "plain_text_passwd: '[HIDDEN]'"

/-- The display sanitizing of src/services/cloud_init_generator.py
lines 528-533: replace every occurrence of
`plain_text_passwd: <password>` when a truthy password is configured. -/
def sanitizeDisplay (cfg : String) (uc : Option UserCredentials) : String :=
  match uc with
  | some c =>
      if pyTruthyStr c.password then
        pyReplaceAll cfg ("plain_text_passwd: " ++ pyShow c.password) hiddenMarker
      else cfg
  | none => cfg

/-- The return value of `generate_cloud_init`
(src/services/cloud_init_generator.py lines 535-541 and 582-588). -/
structure CloudInitResult where
  config : String
  displayConfig : String
  tags : List String
  hasEnhancements : Bool
  machineConfigs : List MachineCloudInit
  deriving Repr

/-- `list(set(...))` over all machines' tags; a Python set iterates in an
unspecified order, modelled as first-occurrence order. -/
def allTagsOf (machines : List Machine) : List String :=
  ((machines.map (·.tag_names)).flatten).eraseDups

/-- The non-functional multi-machine summary document
(src/services/cloud_init_generator.py lines 551-580). -/
def summaryConfig (machines : List Machine) (uc : Option UserCredentials)
    (now : String) : String :=
  let all_tags := allTagsOf machines
  "#cloud-config\n" ++
  "# Auto-generated configuration for MAAS deployment\n" ++
  "# Multiple machines: " ++ toString machines.length ++ " machines\n" ++
  "# Machines: " ++ String.intercalate ", " (machines.map Machine.displayName) ++ "\n" ++
  "# All tags: " ++ (if all_tags = [] then "none" else String.intercalate ", " all_tags) ++ "\n" ++
  "# Generated at: " ++ now ++ "\n" ++
  "\n" ++
  "# Note: Each machine will receive individualized configuration\n" ++
  "# based on its specific tags and hardware configuration\n" ++
  "\n" ++
  (match uc with
   | some c =>
      if decide (c.configured ≠ some false) then
        "users:\n" ++
        "  - name: " ++ c.username.getD "user" ++ "\n" ++
        "    plain_text_passwd: '[HIDDEN]'\n" ++
        "    sudo: 'ALL=(ALL) NOPASSWD:ALL'\n" ++
        "    shell: /bin/bash\n" ++
        "    groups: [sudo, docker]\n" ++
        "    lock_passwd: false\n"
      else "# No user configuration - machines will use default system access\n"
   | none => "# No user configuration - machines will use default system access\n") ++
  "\n" ++
  "# Individual machine configurations will be applied during deployment\n" ++
  "# Each machine gets customized packages, drivers, and scripts based on its tags\n" ++
  "\n" ++
  "final_message: \"MAAS deployment completed for " ++ toString machines.length ++
    " machines with individualized configurations\"\n"

/-- `generate_cloud_init` (src/services/cloud_init_generator.py
lines 519-588): a single selected machine gets its individual rendering and
a sanitized display rendering; several machines get one individual config
each plus a display-only summary document. -/
def generateCloudInit (selected : List Machine) (user_config os_type : String)
    (uc : Option UserCredentials) (now : String) : CloudInitResult :=
  match selected with
  | [m] =>
      let mc := generateMachineCloudInit m user_config os_type uc now
      { config := mc.config
        displayConfig := sanitizeDisplay mc.config uc
        tags := mc.tags
        hasEnhancements := mc.hasEnhancements
        machineConfigs := [mc] }
  | ms =>
      let mcs := ms.map (fun m => generateMachineCloudInit m user_config os_type uc now)
      let summary := summaryConfig ms uc now
      { config := summary
        displayConfig := summary
        tags := allTagsOf ms
        hasEnhancements := mcs.any (·.hasEnhancements)
        machineConfigs := mcs }

/-! ### Job execution (src/app.py lines 423-537)

The asynchronous flow is modelled with explicit state passing.  The MAAS
gateway is an oracle: `fetch` is the outcome of the initial
`maas_api('machines/')` snapshot call, and `deployRes` maps a system id to
the outcome of its deploy call.  `now` stands for `datetime.now()`.
Concurrent readers of the job store can only observe the job between
`await` points, and every mutation block between two `await`s is modelled
as a single state transition, so the list of modelled states is exactly the
list of observable snapshots. -/

/-- One entry of `job['results']`. -/
structure ResultEntry where
  machine_id : String
  hostname : String
  status : String
  reason : Option String := none
  error : Option String := none
  distro_series : Option String := none
  os_type : Option String := none
  deployed_at : Option String := none
  deriving Repr, DecidableEq

/-- `job['config']` as built at src/app.py lines 786-794. -/
structure JobConfig where
  distro_series : String := "jammy"
  user_data : Option String := none
  tags : Option (List String) := none
  pool : Option String := none
  count : Option Int := none
  auto_select : Option Bool := none
  tag_match_mode : Option String := none
  deriving Repr

/-- The mutable job record (src/app.py lines 775-795). -/
structure JobState where
  status : String
  machines : List (String × String) := []
  total_machines : Nat := 0
  successful_deployments : Nat := 0
  failed_deployments : Nat := 0
  results : List ResultEntry := []
  error : Option String := none
  completed_at : Option String := none
  config : JobConfig
  deriving Repr

/-- `job['config']` from the request (src/app.py lines 786-794). -/
def mkJobConfig (r : ProvisionRequest) : JobConfig :=
  { distro_series := pyOrStr r.distro_series "jammy"
    user_data := r.user_data
    tags := r.tags
    pool := r.pool
    count := r.count
    auto_select := r.auto_select
    tag_match_mode := r.tag_match_mode }

/-- The job as created at submission time (status `pending`, all counters
zero, src/app.py lines 775-795). -/
def initialJobState (cfg : JobConfig) : JobState :=
  { status := "pending", config := cfg }

/-- Result entry for a machine that is not in Ready state at execution time
(src/app.py lines 448-453). -/
def skippedEntry (sysid : String) (m : Machine) : ResultEntry :=
  { machine_id := sysid
    hostname := m.hostname.getD m.system_id
    status := "skipped"
    reason := some ("Machine not in Ready state (current: " ++ m.status_name ++ ")") }

/-- Result entry for a machine id absent from the re-fetched snapshot
(src/app.py lines 457-462).  Note that this `failed` entry does NOT touch
`failed_deployments`. -/
def notFoundEntry (sysid : String) : ResultEntry :=
  { machine_id := sysid
    hostname := sysid
    status := "failed"
    reason := some "Machine not found" }

/-- The resolution loop of `deploy_machines` (src/app.py lines 440-462):
ready machines become targets, the rest get `skipped`/`failed` entries. -/
def resolveTargets (fleet : List Machine) (machine_ids : List String) :
    List ResultEntry × List Machine :=
  machine_ids.foldl
    (fun acc mid =>
      match fleet.find? (fun m => m.system_id == mid) with
      | some m =>
          if m.status_name ≠ "Ready" then (acc.1 ++ [skippedEntry mid m], acc.2)
          else (acc.1, acc.2 ++ [m])
      | none => (acc.1 ++ [notFoundEntry mid], acc.2))
    ([], [])

/-- Execution-time tag re-check (src/app.py lines 465-467): note it always
uses ANY semantics, whatever `tag_match_mode` the job carries. -/
def execTagFilter (cfg : JobConfig) (ms : List Machine) : List Machine :=
  if pyTruthyList cfg.tags then ms.filter (fun m => anyTagMatch (cfg.tags.getD []) m)
  else ms

/-- Execution-time pool re-check (src/app.py lines 469-471). -/
def execPoolFilter (cfg : JobConfig) (ms : List Machine) : List Machine :=
  if pyTruthyStr cfg.pool then ms.filter (fun m => m.poolName == cfg.pool.getD "")
  else ms

/-- Execution-time count cap (src/app.py lines 473-475). -/
def execCountCap (cfg : JobConfig) (ms : List Machine) : List Machine :=
  if (cfg.count.getD 0) > 0 then ms.take (cfg.count.getD 0).toNat else ms

/-- The machines that the deploy loop will walk, after the status check and
the post-selection filters. -/
def finalTargets (fleet : List Machine) (cfg : JobConfig)
    (machine_ids : List String) : List Machine :=
  execCountCap cfg (execPoolFilter cfg (execTagFilter cfg
    (resolveTargets fleet machine_ids).2))

/-- A deploy invocation issued to the MAAS gateway
(src/app.py lines 494-501): the `user_data` key is present only when the
job config carries a truthy user snippet. -/
structure DeployCall where
  machine_id : String
  distro_series : String
  user_data : Option String
  deriving Repr, DecidableEq

/-- `os_type` derivation in the deploy loop (src/app.py line 487). -/
def deployOsType (distro : String) : String :=
  if isRockyOsType distro then "rocky" else "ubuntu"

/-- Result entry for a successful deploy (src/app.py lines 503-511). -/
def deployEntryOk (m : Machine) (distro os now : String) : ResultEntry :=
  { machine_id := m.system_id
    hostname := m.hostname.getD (m.fqdn.getD m.system_id)
    status := "deployed"
    distro_series := some distro
    os_type := some os
    deployed_at := some now }

/-- Result entry for a failed deploy call (src/app.py lines 515-522). -/
def deployEntryErr (m : Machine) (err : String) : ResultEntry :=
  { machine_id := m.system_id
    hostname := m.hostname.getD (m.fqdn.getD m.system_id)
    status := "failed"
    error := some err }

/-- One iteration of the deploy loop (src/app.py lines 483-524), returning
the updated job and the deploy call that was issued. -/
def deployStep (cfg : JobConfig) (deployRes : String → Except String Unit)
    (now : String) (s : JobState) (m : Machine) : JobState × DeployCall :=
  let distro := cfg.distro_series
  let os := deployOsType distro
  let ud :=
    if pyTruthyStr cfg.user_data then
      some (getMachineCloudInit m (cfg.user_data.getD "") os now)
    else none
  let call : DeployCall := { machine_id := m.system_id, distro_series := distro, user_data := ud }
  match deployRes m.system_id with
  | .ok _ =>
      ({ s with results := s.results ++ [deployEntryOk m distro os now]
                successful_deployments := s.successful_deployments + 1 }, call)
  | .error e =>
      ({ s with results := s.results ++ [deployEntryErr m e]
                failed_deployments := s.failed_deployments + 1 }, call)

/-- The deploy loop: final state, the calls issued, and the intermediate
states observable while later machines are being deployed. -/
def deployLoop (cfg : JobConfig) (deployRes : String → Except String Unit)
    (now : String) : JobState → List Machine →
    JobState × List DeployCall × List JobState
  | s, [] => (s, [], [])
  | s, m :: ms =>
      let step := deployStep cfg deployRes now s m
      let rest := deployLoop cfg deployRes now step.1 ms
      (rest.1, step.2 :: rest.2.1, step.1 :: rest.2.2)

/-- The job state visible once the resolution phase and post-selection
filters have run (src/app.py lines 433-480): status `running`, the
skipped/not-found entries recorded, `total_machines` and `machines` set to
the final target list. -/
def preState (fleet : List Machine) (cfg : JobConfig)
    (machine_ids : List String) : JobState :=
  { status := "running"
    results := (resolveTargets fleet machine_ids).1
    total_machines := (finalTargets fleet cfg machine_ids).length
    machines := (finalTargets fleet cfg machine_ids).map
      (fun m => (m.system_id, m.hostname.getD (m.fqdn.getD m.system_id)))
    config := cfg }

/-- `deploy_machines` (src/app.py lines 424-537).  Returns the terminal job
state, the deploy calls issued, and the full list of observable job states
(pending, running, post-resolution, after each deploy, terminal). -/
def deployMachines (fetch : Except String (List Machine))
    (machine_ids : List String) (cfg : JobConfig)
    (deployRes : String → Except String Unit) (now : String) :
    JobState × List DeployCall × List JobState :=
  let s0 := initialJobState cfg
  let s1 := { s0 with status := "running" }
  match fetch with
  | .error e =>
      let sf := { s1 with status := "failed", error := some e }
      (sf, [], [s0, s1, sf])
  | .ok fleet =>
      let targets := finalTargets fleet cfg machine_ids
      let s2 := preState fleet cfg machine_ids
      let run := deployLoop cfg deployRes now s2 targets
      let sf := { run.1 with
        status := if run.1.failed_deployments = 0 then "completed" else "completed_with_errors"
        completed_at := some now }
      (sf, run.2.1, [s0, s1, s2] ++ run.2.2 ++ [sf])

/-! ### The submission pipeline (src/app.py lines 609-821) -/

/-- The synchronous rejections of `provision_machines`. -/
inductive ProvisionError where
  | validation (msg : String)
  | resolution (e : ResolutionError)
  | insufficient (e : InsufficientResourcesError)
  deriving Repr

/-- The successful outcome of `provision_machines`: the job record put in
the job store plus the targets handed to the background task. -/
structure ProvisionOk where
  job : JobState
  selected : List String
  resource_validation : Option ResourceValidation
  machines_to_deploy : Nat

/-- `provision_machines` (src/app.py lines 609-821), up to the point where
the background task is launched.  A rejected request produces an error and
no job record. -/
def provisionMachines (configuredPools : List String) (r : ProvisionRequest)
    (fleet : List Machine) : Except ProvisionError ProvisionOk :=
  if autoMode r then
    if !pyTruthyList r.tags then
      .error (.validation "tags array is required for automatic machine selection")
    else if !(match r.count with | some c => decide (c ≥ 1) | none => false) then
      .error (.validation "count is required and must be greater than 0 for automatic machine selection")
    else
      match autoSelectMachines configuredPools r fleet with
      | .error e => .error (.insufficient e)
      | .ok (sel, rv) =>
          .ok { job := initialJobState (mkJobConfig r)
                selected := sel
                resource_validation := some rv
                machines_to_deploy := sel.length }
  else
    if !pyTruthyList r.machines then
      .error (.validation "machines array is required when not using automatic selection")
    else
      match resolveMachineIdentifiers fleet (r.machines.getD []) with
      | .error e => .error (.resolution e)
      | .ok sel =>
          .ok { job := initialJobState (mkJobConfig r)
                selected := sel
                resource_validation := none
                machines_to_deploy := sel.length }

/-! ## Claim C6: ALL-mode vs ANY-mode tag matching -/

/-- A machine carrying one tag, used to exhibit the empty-tag-set corner
case of the match predicates. -/
def c6Machine : Machine := { system_id := "m0", tag_names := ["x"] }

/-- C6 (counterexample): with an empty tag set the ALL predicate accepts
every machine (`all` over an empty list is `True`) while the ANY predicate
accepts none (`any` over an empty list is `False`), so ALL-mode selection is
NOT a subset of ANY-mode selection for the empty tag set. -/
theorem c6_counterexample :
    c6Machine ∈ taggedMachines "all" [] [c6Machine] ∧
    c6Machine ∉ taggedMachines "any" [] [c6Machine] := by decide

/-- C6 (amended): for every NON-EMPTY tag set and every candidate fleet,
the machines accepted by the ALL tag-match predicate are a subset of those
accepted by the ANY tag-match predicate. -/
theorem c6_all_subset_any (tags : List String) (h : tags ≠ [])
    (ms : List Machine) (m : Machine) (hm : m ∈ taggedMachines "all" tags ms) :
    m ∈ taggedMachines "any" tags ms := by
  obtain ⟨t, ts, rfl⟩ := List.exists_cons_of_ne_nil h
  simp only [taggedMachines, List.mem_filter] at hm ⊢
  refine ⟨hm.1, ?_⟩
  have h2 := hm.2
  simp only [selTagPred, if_neg (by decide : ¬ ("all" : String) = "any"),
    if_pos rfl, allTagMatch, List.all_cons, Bool.and_eq_true] at h2
  have hany : anyTagMatch (t :: ts) m = true := by
    simp only [anyTagMatch, List.any_cons, Bool.or_eq_true]
    exact Or.inl h2.1
  simpa [selTagPred] using hany

/-- The machine used to instantiate `c6_all_subset_any`. -/
def c6WitnessMachine : Machine := { system_id := "w", tag_names := ["gpu"] }

/-- Witness: `c6_all_subset_any` applied at a concrete non-empty tag set. -/
theorem c6_witness :
    c6WitnessMachine ∈ taggedMachines "any" ["gpu"] [c6WitnessMachine] :=
  c6_all_subset_any ["gpu"] (by decide) [c6WitnessMachine] c6WitnessMachine
    (by decide)

/-! ## Claim C7: execution-time re-checks vs selection predicates -/

/-- A job configuration carrying two tags and the (default) ALL match
mode. -/
def c7Config : JobConfig := { tags := some ["a", "b"], tag_match_mode := some "all" }

/-- A machine carrying only one of the two tags. -/
def c7Machine : Machine := { system_id := "m1", tag_names := ["a"] }

/-- C7 (counterexample): the execution-time tag re-check accepts a machine
carrying only one of the two configured tags although the selection
predicate for the configured `all` match mode rejects it — the re-check
does not use the same ALL/ANY mode as selection. -/
theorem c7_counterexample :
    c7Machine ∈ execTagFilter c7Config [c7Machine] ∧
    selTagPred (pyOrStr c7Config.tag_match_mode "all") (c7Config.tags.getD [])
      c7Machine = false := by decide

/-- C7 (amended): the execution-time pool re-check and count cap coincide
with the Selection Engine's request-pool filter and first-`count` policy,
but the execution-time tag re-check always uses ANY semantics; it therefore
accepts exactly the Selection Engine's tag-filtered machines precisely when
the configured match mode is `any`. -/
theorem c7_amended (cfg : JobConfig) (ms : List Machine) :
    (execPoolFilter cfg ms = requestPoolFilter cfg.pool ms)
    ∧ (pyTruthyList cfg.tags = true →
        execTagFilter cfg ms = taggedMachines "any" (cfg.tags.getD []) ms)
    ∧ (pyTruthyList cfg.tags = true → pyOrStr cfg.tag_match_mode "all" = "any" →
        execTagFilter cfg ms
          = taggedMachines (pyOrStr cfg.tag_match_mode "all") (cfg.tags.getD []) ms)
    ∧ (∀ c : Int, cfg.count = some c → 0 < c →
        execCountCap cfg ms = ms.take c.toNat) := by
  have htag : execTagFilter cfg ms = taggedMachines "any" (cfg.tags.getD []) ms
      ∨ pyTruthyList cfg.tags = false := by
    by_cases ht : pyTruthyList cfg.tags = true
    · left
      simp only [execTagFilter, if_pos ht, taggedMachines]
      exact List.filter_congr (fun m _ => by simp [selTagPred])
    · right
      exact Bool.eq_false_iff.mpr ht
  refine ⟨rfl, ?_, ?_, ?_⟩
  · intro ht
    rcases htag with h | h
    · exact h
    · rw [ht] at h; cases h
  · intro ht hmode
    rw [hmode]
    rcases htag with h | h
    · exact h
    · rw [ht] at h; cases h
  · intro c hc hpos
    simp only [execCountCap, hc, Option.getD_some, if_pos hpos]

/-- Config used to instantiate `c7_amended`. -/
def c7WitnessConfig : JobConfig :=
  { tags := some ["a"], tag_match_mode := some "any", count := some 1 }

/-- Witness: `c7_amended` applied at a concrete `any`-mode configuration. -/
theorem c7_witness :
    execTagFilter c7WitnessConfig [c7Machine]
      = taggedMachines "any" ["a"] [c7Machine] :=
  (c7_amended c7WitnessConfig [c7Machine]).2.2.1 (by decide) (by decide)

/-! ## Claim C8: conservative user-snippet merging -/

/-- Stripping the list-item marker: `cmd.replace('- ', '', 1)` on a line
that starts with `"- "` removes exactly the two leading characters. -/
theorem replaceFirst_strip (l : String) (h : pyStartsWith l "- ") :
    (pyReplaceFirst l "- " "").data = l.data.drop 2 := by
  obtain ⟨t, ht⟩ := h
  have hl : l.data = '-' :: ' ' :: t := by
    rw [← ht]; rfl
  simp only [pyReplaceFirst, hl]
  rw [replaceFirstL]
  rw [if_pos]
  · rfl
  · exact ⟨by decide, ⟨t, rfl⟩⟩

/-- C8 (amended): the merged command list appends, after all base and
enhancement commands, exactly the snippet lines that are structurally list
items free of the `echo`/`systemctl` tokens — verbatim with the two-character
list-item marker stripped and preceded by one header comment — while every
other snippet line contributes nothing to the output (it is silently
dropped, with no explanatory comment). -/
theorem c8_amended (base : ConfigDoc) (enh : Enhancements) (uc : String) :
    ((mergeConfigurations base enh uc).runcmd
        = base.runcmd ++ enh.runcmd ++ userRuncmd uc)
    ∧ (∀ l ∈ userCommands uc,
        l ∈ userLines uc ∧ pyStartsWith l "- " ∧
        ¬ strContains l "echo" ∧ ¬ strContains l "systemctl")
    ∧ (∀ l ∈ userLines uc, l ∉ userCommands uc → ¬ isSafeUserLine l = true)
    ∧ (userCommands uc = [] → userRuncmd uc = [])
    ∧ (userCommands uc ≠ [] →
        userRuncmd uc = "# User-provided commands:" ::
          (userCommands uc).map (fun c => pyReplaceFirst c "- " ""))
    ∧ (∀ l ∈ userCommands uc, (pyReplaceFirst l "- " "").data = l.data.drop 2) := by
  refine ⟨rfl, ?_, ?_, ?_, ?_, ?_⟩
  · intro l hl
    rw [userCommands, List.mem_filter] at hl
    obtain ⟨hmem, hsafe⟩ := hl
    rw [isSafeUserLine, Bool.and_eq_true, Bool.and_eq_true] at hsafe
    refine ⟨hmem, of_decide_eq_true hsafe.1.1, ?_, ?_⟩
    · have := hsafe.1.2
      simp only [strContainsB, Bool.not_eq_true'] at this
      exact of_decide_eq_false this
    · have := hsafe.2
      simp only [strContainsB, Bool.not_eq_true'] at this
      exact of_decide_eq_false this
  · intro l hmem hnot hsafe
    exact hnot (by rw [userCommands, List.mem_filter]; exact ⟨hmem, hsafe⟩)
  · intro h
    rw [userRuncmd, if_pos h]
  · intro h
    rw [userRuncmd, if_neg h]
  · intro l hl
    refine replaceFirst_strip l ?_
    rw [userCommands, List.mem_filter] at hl
    have hsafe := hl.2
    rw [isSafeUserLine, Bool.and_eq_true, Bool.and_eq_true] at hsafe
    exact of_decide_eq_true hsafe.1.1

/-- C8 (counterexample): a non-empty snippet line that is not a safe list
item is dropped silently — the merged output contains NO explanatory
comment line for it, contradicting the claim that such a line is replaced
by a comment in the output. -/
def c8Base : ConfigDoc := { packages := [], runcmd := ["base-cmd"] }

/-- C8 (counterexample): merging the one-line snippet `rm -rf /tmp` leaves
the command list exactly equal to the base commands: the non-empty unsafe
line neither executes nor leaves any comment in the output. -/
theorem c8_counterexample :
    userLines "rm -rf /tmp" = ["rm -rf /tmp"] ∧
    (mergeConfigurations c8Base {} "rm -rf /tmp").runcmd = ["base-cmd"] := by
  decide

/-- Witness: `c8_amended` applied at a concrete snippet mixing one safe and
one unsafe line. -/
theorem c8_witness :
    (mergeConfigurations c8Base {} "- ls -la\nrm x").runcmd
      = ["base-cmd"] ++ [] ++ ["# User-provided commands:", pyReplaceFirst "- ls -la" "- " ""] := by
  have h1 := (c8_amended c8Base {} "- ls -la\nrm x").1
  have h2 := (c8_amended c8Base {} "- ls -la\nrm x").2.2.2.2.1 (by decide)
  rw [h1, h2]
  have : userCommands "- ls -la\nrm x" = ["- ls -la"] := by decide
  rw [this]
  rfl

/-! ## Claim C4: explicit-selection identifier resolution -/

/-- `lexLeB` is total. -/
theorem lexLeB_total : ∀ a b : List Char, (lexLeB a b || lexLeB b a) = true
  | [], _ => by simp [lexLeB]
  | _ :: _, [] => by simp [lexLeB]
  | a :: as, b :: bs => by
      simp only [lexLeB]
      rcases Nat.lt_trichotomy a.toNat b.toNat with h | h | h
      · rw [if_neg (Nat.ne_of_lt h), if_neg (Nat.ne_of_gt h)]
        simp [h]
      · rw [if_pos h, if_pos h.symm]
        exact lexLeB_total as bs
      · rw [if_neg (Nat.ne_of_gt h), if_neg (Nat.ne_of_lt h)]
        simp [h]

/-- `lexLeB` is transitive. -/
theorem lexLeB_trans : ∀ a b c : List Char,
    lexLeB a b = true → lexLeB b c = true → lexLeB a c = true
  | [], _, _ => by simp [lexLeB]
  | _ :: _, [], _ => by simp [lexLeB]
  | _ :: _, _ :: _, [] => by simp [lexLeB]
  | a :: as, b :: bs, c :: cs => by
      simp only [lexLeB]
      by_cases hab : a.toNat = b.toNat
      · by_cases hbc : b.toNat = c.toNat
        · rw [if_pos hab, if_pos hbc, if_pos (hab.trans hbc)]
          exact lexLeB_trans as bs cs
        · rw [if_pos hab, if_neg hbc, if_neg (fun hc => hbc (hab.symm.trans hc)),
            hab]
          exact fun _ h => h
      · by_cases hbc : b.toNat = c.toNat
        · rw [if_neg hab, if_pos hbc, if_neg (fun hc => hab (hc.trans hbc.symm)),
            ← hbc]
          exact fun h _ => h
        · rw [if_neg hab, if_neg hbc]
          by_cases hac : a.toNat = c.toNat
          · intro h1 h2
            exact absurd (Nat.lt_trans (of_decide_eq_true h1)
              (of_decide_eq_true h2)) (by rw [hac]; exact Nat.lt_irrefl _)
          · rw [if_neg hac]
            intro h1 h2
            exact decide_eq_true
              (Nat.lt_trans (of_decide_eq_true h1) (of_decide_eq_true h2))

/-- A token is resolvable against the fleet when it is a known system id or
a known hostname. -/
def resolvable (fleet : List Machine) (i : String) : Prop :=
  i ∈ knownIds fleet ∨ ∃ m ∈ fleet, m.hostname = some i

instance (fleet : List Machine) (i : String) : Decidable (resolvable fleet i) := by
  unfold resolvable
  infer_instance

/-- The loop body leaves a token unresolved exactly when it matches neither
a system id nor a hostname. -/
theorem resolveOne_eq_none_iff (fleet : List Machine) (i : String) :
    resolveOne fleet i = none ↔ ¬ resolvable fleet i := by
  rw [resolveOne, resolvable]
  by_cases h : i ∈ knownIds fleet
  · simp [h]
  · rw [if_neg h, hostnameToId, List.getLast?_eq_none_iff, List.map_eq_nil_iff,
      List.filter_eq_nil_iff]
    constructor
    · intro hf hres
      rcases hres with hid | ⟨m, hm, hh⟩
      · exact h hid
      · exact hf m hm (decide_eq_true hh)
    · intro hres m hm hmh
      exact hres (Or.inr ⟨m, hm, of_decide_eq_true hmh⟩)

/-- When every token resolves, the loop resolves them in input order. -/
theorem filterMap_resolveOne_eq_map (fleet : List Machine) :
    ∀ ids : List String, (∀ i ∈ ids, resolvable fleet i) →
      ids.filterMap (resolveOne fleet)
        = ids.map (fun i => (resolveOne fleet i).getD "")
  | [], _ => rfl
  | i :: ids, h => by
      have hi : resolvable fleet i := h i (List.mem_cons_self i ids)
      have hsome : resolveOne fleet i ≠ none := by
        intro hn
        exact (resolveOne_eq_none_iff fleet i).mp hn hi
      obtain ⟨v, hv⟩ := Option.ne_none_iff_exists'.mp hsome
      rw [List.filterMap_cons, List.map_cons, hv]
      simp only [Option.getD_some]
      rw [filterMap_resolveOne_eq_map fleet ids
        (fun j hj => h j (List.mem_cons_of_mem i hj))]

/-- C4: resolution tries exact system-id match first, then exact hostname
match, preserves input order, and on any unresolved token fails with a
single error listing every unresolved token, the full sorted set of known
hostnames and the full sorted set of known system ids, returning no partial
resolution. -/
theorem c4_resolution (fleet : List Machine) (identifiers : List String) :
    ((∀ i ∈ identifiers, resolvable fleet i) →
      resolveMachineIdentifiers fleet identifiers
        = .ok (identifiers.map (fun i => (resolveOne fleet i).getD "")))
    ∧ (∀ i, i ∈ knownIds fleet → resolveOne fleet i = some i)
    ∧ (∀ i, i ∉ knownIds fleet → (∃ m ∈ fleet, m.hostname = some i) →
        ∃ m ∈ fleet, m.hostname = some i ∧ resolveOne fleet i = some m.system_id)
    ∧ ((∃ i ∈ identifiers, ¬ resolvable fleet i) →
        ∃ e, resolveMachineIdentifiers fleet identifiers = .error e
          ∧ e.unresolved = identifiers.filter (fun i => !(decide (resolvable fleet i)))
          ∧ e.unresolved ≠ []
          ∧ (∀ h, h ∈ e.available_hostnames ↔ ∃ m ∈ fleet, m.hostname = some h)
          ∧ (∀ sid, sid ∈ e.available_system_ids ↔ ∃ m ∈ fleet, m.system_id = sid)
          ∧ List.Pairwise (fun a b : String => lexLeB a.data b.data = true)
              e.available_hostnames
          ∧ List.Pairwise (fun a b : String => lexLeB a.data b.data = true)
              e.available_system_ids) := by
  have hfilter : ∀ i : String,
      (resolveOne fleet i).isNone = !(decide (resolvable fleet i)) := by
    intro i
    by_cases h : resolvable fleet i
    · have hne : resolveOne fleet i ≠ none := fun hn =>
        (resolveOne_eq_none_iff fleet i).mp hn h
      obtain ⟨v, hv⟩ := Option.ne_none_iff_exists'.mp hne
      simp [hv, h]
    · have := (resolveOne_eq_none_iff fleet i).mpr h
      simp [this, h]
  have hfeq : identifiers.filter (fun i => (resolveOne fleet i).isNone)
      = identifiers.filter (fun i => !(decide (resolvable fleet i))) :=
    List.filter_congr (fun i _ => hfilter i)
  refine ⟨?_, ?_, ?_, ?_⟩
  · intro h
    have hempty : identifiers.filter (fun i => (resolveOne fleet i).isNone) = [] := by
      rw [hfeq, List.filter_eq_nil_iff]
      intro i hi
      simp [h i hi]
    rw [resolveMachineIdentifiers, hempty]
    rw [if_pos rfl, filterMap_resolveOne_eq_map fleet identifiers h]
  · intro i hi
    rw [resolveOne, if_pos hi]
  · intro i hi hh
    have hne : (fleet.filter (fun m => m.hostname = some i)) ≠ [] := by
      rw [Ne, List.filter_eq_nil_iff]
      push_neg
      obtain ⟨m, hm, hmh⟩ := hh
      exact ⟨m, hm, by simp [hmh]⟩
    obtain ⟨v, hv⟩ := Option.ne_none_iff_exists'.mp
      (mt List.getLast?_eq_none_iff.mp hne)
    have hvmem : v ∈ fleet.filter (fun m => m.hostname = some i) :=
      List.mem_of_mem_getLast? hv
    rw [List.mem_filter] at hvmem
    refine ⟨v, hvmem.1, of_decide_eq_true hvmem.2, ?_⟩
    rw [resolveOne, if_neg hi, hostnameToId, List.getLast?_map, hv]
    rfl
  · intro h
    have hne : identifiers.filter (fun i => (resolveOne fleet i).isNone) ≠ [] := by
      rw [hfeq, Ne, List.filter_eq_nil_iff]
      push_neg
      obtain ⟨i, hi, hni⟩ := h
      exact ⟨i, hi, by simp [hni]⟩
    rw [resolveMachineIdentifiers]
    rw [if_neg hne]
    refine ⟨_, rfl, hfeq, hne, ?_, ?_, ?_, ?_⟩
    · intro hst
      show hst ∈ pySorted (knownHostnames fleet).dedup ↔ _
      rw [pySorted, List.Perm.mem_iff (List.mergeSort_perm _ _), List.mem_dedup,
        knownHostnames, List.mem_filterMap]
    · intro sid
      show sid ∈ pySorted (knownIds fleet).dedup ↔ _
      rw [pySorted, List.Perm.mem_iff (List.mergeSort_perm _ _), List.mem_dedup,
        knownIds, List.mem_map]
    · show List.Pairwise _ (pySorted (knownHostnames fleet).dedup)
      rw [pySorted]
      exact List.sorted_mergeSort
        (fun a b c => lexLeB_trans a.data b.data c.data)
        (fun a b => lexLeB_total a.data b.data) _
    · show List.Pairwise _ (pySorted (knownIds fleet).dedup)
      rw [pySorted]
      exact List.sorted_mergeSort
        (fun a b c => lexLeB_trans a.data b.data c.data)
        (fun a b => lexLeB_total a.data b.data) _

/-- Fleet used to instantiate `c4_resolution`. -/
def c4Fleet : List Machine :=
  [{ system_id := "abc123", hostname := some "node1", status_name := "Ready" },
   { system_id := "def456", hostname := some "node2", status_name := "Ready" }]

/-- Witness: `c4_resolution` applied at a concrete fleet, resolving one
hostname and one system id in input order. -/
theorem c4_witness :
    resolveMachineIdentifiers c4Fleet ["node2", "abc123"]
      = .ok (["node2", "abc123"].map (fun i => (resolveOne c4Fleet i).getD "")) :=
  (c4_resolution c4Fleet ["node2", "abc123"]).1 (by decide)

/-! ## Claim C5: auto-selection -/

/-- Every ready candidate comes from the fleet and satisfies the configured
pool filter, the optional request pool filter, the tag predicate and the
Ready status. -/
theorem mem_readyCandidates (pools : List String) (r : ProvisionRequest)
    (fleet : List Machine) (m : Machine)
    (hm : m ∈ readyCandidates pools r fleet) :
    m ∈ fleet ∧ m.status_name = "Ready"
    ∧ pools.contains m.poolName = true
    ∧ (pyTruthyStr r.pool = true → m.poolName = r.pool.getD "")
    ∧ selTagPred (pyOrStr r.tag_match_mode "all") (r.tags.getD []) m = true := by
  rw [readyCandidates, readyMachines, List.mem_filter] at hm
  obtain ⟨hm, hready⟩ := hm
  rw [taggedMachines, List.mem_filter] at hm
  obtain ⟨hm, htag⟩ := hm
  have hpoolreq : m ∈ poolFilteredMachines pools fleet
      ∧ (pyTruthyStr r.pool = true → m.poolName = r.pool.getD "") := by
    rw [requestPoolFilter] at hm
    by_cases hp : pyTruthyStr r.pool = true
    · rw [if_pos hp, List.mem_filter] at hm
      exact ⟨hm.1, fun _ => by simpa using hm.2⟩
    · rw [if_neg hp] at hm
      exact ⟨hm, fun h => absurd h hp⟩
  obtain ⟨hm, hreq⟩ := hpoolreq
  rw [poolFilteredMachines, List.mem_filter] at hm
  exact ⟨hm.1, by simpa using hready, hm.2, hreq, htag⟩

/-- C5: auto-selection fails synchronously with a structured
insufficient-resources error (carrying the requested count, the available
count, the tag/pool criteria and the ready candidates) when fewer ready
machines match than requested — and then no job record is created;
otherwise exactly the first `count` ready candidates in fleet-snapshot
order are selected, the selection size equals the requested count, and
every selected machine satisfies the declared pool and tag filters. -/
theorem c5_auto_selection (pools : List String) (r : ProvisionRequest)
    (fleet : List Machine) (c : Int)
    (hmode : autoMode r = true) (htags : pyTruthyList r.tags = true)
    (hcount : r.count = some c) (hc1 : 1 ≤ c) :
    (((readyCandidates pools r fleet).length : Int) < c →
      ∃ e, provisionMachines pools r fleet = .error (.insufficient e)
        ∧ e.requested_count = c
        ∧ e.available_count = (readyCandidates pools r fleet).length
        ∧ e.required_tags = r.tags.getD []
        ∧ e.pool = pyOrStr r.pool "any configured pool"
        ∧ e.available_machines = readyCandidates pools r fleet)
    ∧ (¬ (((readyCandidates pools r fleet).length : Int) < c) →
      ∃ ok, provisionMachines pools r fleet = .ok ok
        ∧ ok.selected
            = ((readyCandidates pools r fleet).take c.toNat).map (·.system_id)
        ∧ ok.selected.length = c.toNat
        ∧ ok.job = initialJobState (mkJobConfig r)
        ∧ (∀ sid ∈ ok.selected, ∃ m ∈ fleet,
            m.system_id = sid ∧ m.status_name = "Ready"
            ∧ pools.contains m.poolName = true
            ∧ (pyTruthyStr r.pool = true → m.poolName = r.pool.getD "")
            ∧ selTagPred (pyOrStr r.tag_match_mode "all") (r.tags.getD []) m
                = true)) := by
  have hnotags : ¬ ((!pyTruthyList r.tags) = true) := by
    rw [htags]; decide
  have hnocount : ¬ ((!(match r.count with
      | some c => decide (c ≥ 1) | none => false)) = true) := by
    rw [hcount]
    have hdec : decide (c ≥ 1) = true := decide_eq_true hc1
    simp [hdec]
  have hprov : provisionMachines pools r fleet
      = (match autoSelectMachines pools r fleet with
         | .error e => .error (.insufficient e)
         | .ok (sel, rv) =>
            .ok { job := initialJobState (mkJobConfig r)
                  selected := sel
                  resource_validation := some rv
                  machines_to_deploy := sel.length }) := by
    rw [provisionMachines, if_pos hmode, if_neg hnotags, if_neg hnocount]
  have hauto : autoSelectMachines pools r fleet
      = (if ((readyCandidates pools r fleet).length : Int) < c then
          .error { requested_count := c
                   available_count := (readyCandidates pools r fleet).length
                   required_tags := r.tags.getD []
                   pool := pyOrStr r.pool "any configured pool"
                   available_machines := readyCandidates pools r fleet }
         else
          .ok (((readyCandidates pools r fleet).take c.toNat).map (·.system_id),
            { auto_selected := true
              requested_count := c
              available_count := (readyCandidates pools r fleet).length
              selected_machines :=
                (((readyCandidates pools r fleet).take c.toNat).map
                  (·.system_id)).length
              criteria_tags := r.tags.getD []
              criteria_tag_match_mode := pyOrStr r.tag_match_mode "all"
              criteria_pool := r.pool
              criteria_status := "Ready" })) := by
    rw [autoSelectMachines, hcount]
    rfl
  constructor
  · intro hlt
    rw [hprov, hauto, if_pos hlt]
    exact ⟨_, rfl, rfl, rfl, rfl, rfl, rfl⟩
  · intro hge
    rw [hprov, hauto, if_neg hge]
    refine ⟨_, rfl, rfl, ?_, rfl, ?_⟩
    · rw [List.length_map, List.length_take]
      have hcle : c.toNat ≤ (readyCandidates pools r fleet).length := by
        rw [Int.toNat_le]
        exact Int.not_lt.mp hge
      exact Nat.min_eq_left hcle
    · intro sid hsid
      rw [List.mem_map] at hsid
      obtain ⟨m, hmem, hid⟩ := hsid
      have hm := mem_readyCandidates pools r fleet m
        (List.mem_of_mem_take hmem)
      exact ⟨m, hm.1, hid, hm.2.1, hm.2.2.1, hm.2.2.2.1, hm.2.2.2.2⟩

/-- Fleet used to instantiate `c5_auto_selection`: two ready tagged
machines, one machine lacking the tag. -/
def c5Fleet : List Machine :=
  [{ system_id := "g1", hostname := some "g1h", status_name := "Ready",
     tag_names := ["gpu"] },
   { system_id := "g2", hostname := some "g2h", status_name := "Ready",
     tag_names := ["gpu"] },
   { system_id := "x1", hostname := some "x1h", status_name := "Ready",
     tag_names := ["other"] }]

/-- Request used to instantiate `c5_auto_selection`. -/
def c5Request : ProvisionRequest :=
  { tags := some ["gpu"], count := some 2, auto_select := some true }

/-- Witness: `c5_auto_selection` applied at a concrete request for 2 of the
2 ready `gpu` machines. -/
theorem c5_witness :
    ∃ ok, provisionMachines ["default"] c5Request c5Fleet = .ok ok
      ∧ ok.selected
          = ((readyCandidates ["default"] c5Request c5Fleet).take (2 : Int).toNat).map
              (·.system_id)
      ∧ ok.selected.length = (2 : Int).toNat
      ∧ ok.job = initialJobState (mkJobConfig c5Request)
      ∧ (∀ sid ∈ ok.selected, ∃ m ∈ c5Fleet,
          m.system_id = sid ∧ m.status_name = "Ready"
          ∧ ["default"].contains m.poolName = true
          ∧ (pyTruthyStr c5Request.pool = true →
              m.poolName = c5Request.pool.getD "")
          ∧ selTagPred (pyOrStr c5Request.tag_match_mode "all")
              (c5Request.tags.getD []) m = true) :=
  (c5_auto_selection ["default"] c5Request c5Fleet 2 (by decide) (by decide)
    rfl (by decide)).2 (by decide)

/-! ## Deploy-loop bookkeeping lemmas (shared by the job-execution claims) -/

/-- Whether a gateway outcome is a success. -/
def okB : Except String Unit → Bool
  | .ok _ => true
  | .error _ => false

/-- The result entry the deploy loop records for machine `m`. -/
def loopEntryOf (cfg : JobConfig) (orc : String → Except String Unit)
    (now : String) (m : Machine) : ResultEntry :=
  match orc m.system_id with
  | .ok _ => deployEntryOk m cfg.distro_series (deployOsType cfg.distro_series) now
  | .error e => deployEntryErr m e

/-- The deploy call the loop issues for machine `m`. -/
def deployCallOf (cfg : JobConfig) (now : String) (m : Machine) : DeployCall :=
  { machine_id := m.system_id
    distro_series := cfg.distro_series
    user_data :=
      if pyTruthyStr cfg.user_data then
        some (getMachineCloudInit m (cfg.user_data.getD "")
          (deployOsType cfg.distro_series) now)
      else none }

/-- Unfolding one iteration of the deploy loop. -/
theorem deployStep_spec (cfg : JobConfig) (orc : String → Except String Unit)
    (now : String) (s : JobState) (m : Machine) :
    (deployStep cfg orc now s m).1
      = { s with
          results := s.results ++ [loopEntryOf cfg orc now m]
          successful_deployments :=
            s.successful_deployments + (if okB (orc m.system_id) then 1 else 0)
          failed_deployments :=
            s.failed_deployments + (if okB (orc m.system_id) then 0 else 1) }
    ∧ (deployStep cfg orc now s m).2 = deployCallOf cfg now m := by
  cases horc : orc m.system_id <;>
    simp [deployStep, horc, loopEntryOf, deployCallOf, okB]

/-- The deploy loop appends one entry per target in target order, issues one
call per target, counts successes/failures by the gateway outcomes, and
leaves status, totals and machine list untouched. -/
theorem deployLoop_spec (cfg : JobConfig) (orc : String → Except String Unit)
    (now : String) : ∀ (ts : List Machine) (s : JobState),
    (deployLoop cfg orc now s ts).1.results
        = s.results ++ ts.map (loopEntryOf cfg orc now)
    ∧ (deployLoop cfg orc now s ts).1.successful_deployments
        = s.successful_deployments
          + (ts.filter (fun m => okB (orc m.system_id))).length
    ∧ (deployLoop cfg orc now s ts).1.failed_deployments
        = s.failed_deployments
          + (ts.filter (fun m => !okB (orc m.system_id))).length
    ∧ (deployLoop cfg orc now s ts).1.status = s.status
    ∧ (deployLoop cfg orc now s ts).1.total_machines = s.total_machines
    ∧ (deployLoop cfg orc now s ts).1.machines = s.machines
    ∧ (deployLoop cfg orc now s ts).2.1 = ts.map (deployCallOf cfg now)
  | [], s => by simp [deployLoop]
  | m :: ts, s => by
      obtain ⟨h1, h2⟩ := deployStep_spec cfg orc now s m
      have ih := deployLoop_spec cfg orc now ts (deployStep cfg orc now s m).1
      rw [deployLoop]
      refine ⟨?_, ?_, ?_, ?_, ?_, ?_, ?_⟩
      · rw [ih.1, h1, List.map_cons]
        simp [List.append_assoc]
      · rw [ih.2.1, h1, List.filter_cons]
        by_cases hok : okB (orc m.system_id) = true <;>
          first
          | (simp [hok]; omega)
          | simp [hok]
      · rw [ih.2.2.1, h1, List.filter_cons]
        by_cases hok : okB (orc m.system_id) = true <;>
          first
          | (simp [hok]; omega)
          | simp [hok]
      · rw [ih.2.2.2.1, h1]
      · rw [ih.2.2.2.2.1, h1]
      · rw [ih.2.2.2.2.2.1, h1]
      · rw [List.map_cons, ← h2]
        exact congrArg _ ih.2.2.2.2.2.2

/-- Counter sums along the loop never exceed the (unchanged)
`total_machines` when the remaining targets fit in the budget. -/
theorem deployLoop_bound (cfg : JobConfig) (orc : String → Except String Unit)
    (now : String) : ∀ (ts : List Machine) (s : JobState),
    s.successful_deployments + s.failed_deployments + ts.length
        ≤ s.total_machines →
    (∀ x ∈ (deployLoop cfg orc now s ts).2.2,
        x.successful_deployments + x.failed_deployments ≤ x.total_machines)
    ∧ (deployLoop cfg orc now s ts).1.successful_deployments
        + (deployLoop cfg orc now s ts).1.failed_deployments
        ≤ (deployLoop cfg orc now s ts).1.total_machines
  | [], s => by
      intro h
      simp only [deployLoop]
      exact ⟨fun x hx => absurd hx (List.not_mem_nil x), by simpa using h⟩
  | m :: ts, s => by
      intro h
      obtain ⟨h1, -⟩ := deployStep_spec cfg orc now s m
      have hstep : (deployStep cfg orc now s m).1.successful_deployments
          + (deployStep cfg orc now s m).1.failed_deployments + ts.length
          ≤ (deployStep cfg orc now s m).1.total_machines := by
        rw [h1]
        simp only [List.length_cons] at h
        by_cases hok : okB (orc m.system_id) = true <;>
          · simp [hok]
            omega
      have ih := deployLoop_bound cfg orc now ts (deployStep cfg orc now s m).1 hstep
      rw [deployLoop]
      refine ⟨?_, ih.2⟩
      intro x hx
      rcases List.mem_cons.mp hx with hx | hx
      · subst hx
        omega
      · exact ih.1 x hx

/-- Count of result entries carrying a given status. -/
def countStatus (st : String) (rs : List ResultEntry) : Nat :=
  (rs.filter (fun e => e.status == st)).length

/-- `countStatus` distributes over append. -/
theorem countStatus_append (st : String) (a b : List ResultEntry) :
    countStatus st (a ++ b) = countStatus st a + countStatus st b := by
  simp [countStatus, List.filter_append]

/-- `countStatus` of a singleton. -/
theorem countStatus_singleton (st : String) (e : ResultEntry) :
    countStatus st [e] = if e.status == st then 1 else 0 := by
  by_cases h : (e.status == st) = true <;> simp [countStatus, List.filter, h]

/-- Every entry recorded by the pre-loop resolution phase is either a
`skipped` entry or the not-found `failed` entry. -/
theorem resolveTargets_entry_status (fleet : List Machine) :
    ∀ (mids : List String) (acc : List ResultEntry × List Machine)
      (e : ResultEntry), e ∈ (mids.foldl
        (fun acc mid =>
          match fleet.find? (fun m => m.system_id == mid) with
          | some m =>
              if m.status_name ≠ "Ready" then (acc.1 ++ [skippedEntry mid m], acc.2)
              else (acc.1, acc.2 ++ [m])
          | none => (acc.1 ++ [notFoundEntry mid], acc.2)) acc).1 →
      e ∈ acc.1 ∨ e.status = "skipped"
        ∨ (e.status = "failed" ∧ e.reason = some "Machine not found")
  | [], acc, e => fun he => Or.inl he
  | mid :: mids, acc, e => by
      intro he
      rw [List.foldl_cons] at he
      rcases hfind : fleet.find? (fun m => m.system_id == mid) with - | m
      · simp only [hfind] at he
        rcases resolveTargets_entry_status fleet mids _ e he with hacc | h
        · rcases List.mem_append.mp hacc with h | h
          · exact Or.inl h
          · rcases List.mem_singleton.mp h with rfl
            exact Or.inr (Or.inr ⟨rfl, rfl⟩)
        · exact Or.inr h
      · simp only [hfind] at he
        by_cases hr : m.status_name ≠ "Ready"
        · rw [if_pos hr] at he
          rcases resolveTargets_entry_status fleet mids _ e he with hacc | h
          · rcases List.mem_append.mp hacc with h | h
            · exact Or.inl h
            · rcases List.mem_singleton.mp h with rfl
              exact Or.inr (Or.inl rfl)
          · exact Or.inr h
        · rw [if_neg hr] at he
          rcases resolveTargets_entry_status fleet mids _ e he with hacc | h
          · exact Or.inl hacc
          · exact Or.inr h

/-- The pre-loop entries contain no `deployed` entry. -/
theorem countStatus_deployed_resolveTargets (fleet : List Machine)
    (mids : List String) :
    countStatus "deployed" (resolveTargets fleet mids).1 = 0 := by
  rw [countStatus, List.length_eq_zero, List.filter_eq_nil_iff]
  intro e he
  rcases resolveTargets_entry_status fleet mids ([], []) e he with h | h | h
  · exact absurd h (List.not_mem_nil e)
  · simp [h]
  · simp [h.1]

/-- Per-status counts of the entries the loop appends: successes become
`deployed`, failures become `failed`, nothing becomes `skipped`. -/
theorem countStatus_loopEntries (cfg : JobConfig)
    (orc : String → Except String Unit) (now : String) :
    ∀ ts : List Machine,
    countStatus "deployed" (ts.map (loopEntryOf cfg orc now))
        = (ts.filter (fun m => okB (orc m.system_id))).length
    ∧ countStatus "failed" (ts.map (loopEntryOf cfg orc now))
        = (ts.filter (fun m => !okB (orc m.system_id))).length
    ∧ countStatus "skipped" (ts.map (loopEntryOf cfg orc now)) = 0
  | [] => by simp [countStatus]
  | m :: ts => by
      have ih := countStatus_loopEntries cfg orc now ts
      rw [List.map_cons]
      have happ : ∀ st, countStatus st (loopEntryOf cfg orc now m
          :: ts.map (loopEntryOf cfg orc now))
          = countStatus st [loopEntryOf cfg orc now m]
            + countStatus st (ts.map (loopEntryOf cfg orc now)) := by
        intro st
        exact countStatus_append st [loopEntryOf cfg orc now m] _
      have hentry : (loopEntryOf cfg orc now m).status
          = (if okB (orc m.system_id) then "deployed" else "failed") := by
        cases horc : orc m.system_id <;>
          simp [loopEntryOf, horc, okB, deployEntryOk, deployEntryErr]

      have hBdd : (("deployed" : String) == "deployed") = true := by decide
      have hBfd : (("failed" : String) == "deployed") = false := by decide
      have hBff : (("failed" : String) == "failed") = true := by decide
      have hBdf : (("deployed" : String) == "failed") = false := by decide
      have hBds : (("deployed" : String) == "skipped") = false := by decide
      have hBfs : (("failed" : String) == "skipped") = false := by decide
      refine ⟨?_, ?_, ?_⟩
      · rw [happ, countStatus_singleton, hentry, List.filter_cons, ih.1]
        by_cases hok : okB (orc m.system_id) = true
        · simp [hok, hBdd]
          omega
        · simp [hok, hBfd]
      · rw [happ, countStatus_singleton, hentry, List.filter_cons, ih.2.1]
        by_cases hok : okB (orc m.system_id) = true
        · simp [hok, hBdf]
        · simp [hok, hBff]
          omega
      · rw [happ, countStatus_singleton, hentry, ih.2.2]
        by_cases hok : okB (orc m.system_id) = true
        · simp [hok, hBds]
        · simp [hok, hBfs]

/-- Unfolding `deploy_machines` when the snapshot fetch succeeds. -/
theorem deployMachines_ok_spec (fleet : List Machine) (mids : List String)
    (cfg : JobConfig) (orc : String → Except String Unit) (now : String) :
    (deployMachines (.ok fleet) mids cfg orc now).1.results
        = (resolveTargets fleet mids).1
          ++ (finalTargets fleet cfg mids).map (loopEntryOf cfg orc now)
    ∧ (deployMachines (.ok fleet) mids cfg orc now).1.successful_deployments
        = ((finalTargets fleet cfg mids).filter
            (fun m => okB (orc m.system_id))).length
    ∧ (deployMachines (.ok fleet) mids cfg orc now).1.failed_deployments
        = ((finalTargets fleet cfg mids).filter
            (fun m => !okB (orc m.system_id))).length
    ∧ (deployMachines (.ok fleet) mids cfg orc now).1.total_machines
        = (finalTargets fleet cfg mids).length
    ∧ (deployMachines (.ok fleet) mids cfg orc now).1.status
        = (if ((finalTargets fleet cfg mids).filter
              (fun m => !okB (orc m.system_id))).length = 0
           then "completed" else "completed_with_errors")
    ∧ (deployMachines (.ok fleet) mids cfg orc now).2.1
        = (finalTargets fleet cfg mids).map (deployCallOf cfg now)
    ∧ (deployMachines (.ok fleet) mids cfg orc now).2.2
        = [initialJobState cfg,
           { initialJobState cfg with status := "running" },
           preState fleet cfg mids]
          ++ (deployLoop cfg orc now (preState fleet cfg mids)
              (finalTargets fleet cfg mids)).2.2
          ++ [(deployMachines (.ok fleet) mids cfg orc now).1] := by
  have hL := deployLoop_spec cfg orc now (finalTargets fleet cfg mids)
    (preState fleet cfg mids)
  refine ⟨?_, ?_, ?_, ?_, ?_, ?_, rfl⟩
  · show (deployLoop cfg orc now (preState fleet cfg mids)
      (finalTargets fleet cfg mids)).1.results = _
    rw [hL.1]
    rfl
  · show (deployLoop cfg orc now (preState fleet cfg mids)
      (finalTargets fleet cfg mids)).1.successful_deployments = _
    rw [hL.2.1]
    simp [preState]
  · show (deployLoop cfg orc now (preState fleet cfg mids)
      (finalTargets fleet cfg mids)).1.failed_deployments = _
    rw [hL.2.2.1]
    simp [preState]
  · show (deployLoop cfg orc now (preState fleet cfg mids)
      (finalTargets fleet cfg mids)).1.total_machines = _
    rw [hL.2.2.2.2.1]
    rfl
  · show (if (deployLoop cfg orc now (preState fleet cfg mids)
      (finalTargets fleet cfg mids)).1.failed_deployments = 0
      then "completed" else "completed_with_errors") = _
    rw [hL.2.2.1]
    simp [preState]
  · show (deployLoop cfg orc now (preState fleet cfg mids)
      (finalTargets fleet cfg mids)).2.1 = _
    exact hL.2.2.2.2.2.2

/-! ## Claim C1: job counter/result invariants -/

/-- The all-success deploy oracle. -/
def orcAllOk : String → Except String Unit := fun _ => .ok ()

/-- The default job config (distro `jammy`, no snippet/filters). -/
def cfg0 : JobConfig := {}

/-- A machine that is present but not in Ready state. -/
def mNotReady : Machine :=
  { system_id := "m1", hostname := some "h1", status_name := "Deployed" }

/-- C1 (counterexample): a single not-Ready machine produces a `skipped`
result entry but is excluded from `total_machines`, so
`successful + failed + skipped ≤ total_machines` fails during execution and
at the terminal state the skipped/failed/deployed entry count (1) differs
from `total_machines` (0) even though the status is terminal. -/
theorem c1_counterexample :
    (∃ s ∈ (deployMachines (.ok [mNotReady]) ["m1"] cfg0 orcAllOk "T").2.2,
      ¬ (s.successful_deployments + s.failed_deployments
          + countStatus "skipped" s.results ≤ s.total_machines))
    ∧ (deployMachines (.ok [mNotReady]) ["m1"] cfg0 orcAllOk "T").1.status
        = "completed"
    ∧ countStatus "deployed"
        (deployMachines (.ok [mNotReady]) ["m1"] cfg0 orcAllOk "T").1.results
      + countStatus "failed"
        (deployMachines (.ok [mNotReady]) ["m1"] cfg0 orcAllOk "T").1.results
      + countStatus "skipped"
        (deployMachines (.ok [mNotReady]) ["m1"] cfg0 orcAllOk "T").1.results
      = 1
    ∧ (deployMachines (.ok [mNotReady]) ["m1"] cfg0 orcAllOk "T").1.total_machines
      = 0 := by decide

/-- C1 (amended): at every observable job state the counters satisfy
`successful + failed ≤ total_machines`; once the flow finishes without a
top-level error the counters satisfy `successful + failed = total_machines`,
`successful` equals the number of `deployed` result entries, and the result
list holds exactly the pre-loop (skipped / not-found) entries plus
`total_machines` per-target entries.  Skipped and not-found entries are
recorded in `results` but excluded from `total_machines`. -/
theorem c1_amended (fetch : Except String (List Machine)) (mids : List String)
    (cfg : JobConfig) (orc : String → Except String Unit) (now : String) :
    (∀ s ∈ (deployMachines fetch mids cfg orc now).2.2,
        s.successful_deployments + s.failed_deployments ≤ s.total_machines)
    ∧ (∀ fleet, fetch = .ok fleet →
        (deployMachines fetch mids cfg orc now).1.successful_deployments
          + (deployMachines fetch mids cfg orc now).1.failed_deployments
          = (deployMachines fetch mids cfg orc now).1.total_machines
        ∧ countStatus "deployed" (deployMachines fetch mids cfg orc now).1.results
          = (deployMachines fetch mids cfg orc now).1.successful_deployments
        ∧ (deployMachines fetch mids cfg orc now).1.results.length
          = (resolveTargets fleet mids).1.length
            + (deployMachines fetch mids cfg orc now).1.total_machines) := by
  constructor
  · intro s hs
    match fetch with
    | .error e =>
        have hs2 : s ∈ [initialJobState cfg,
            { initialJobState cfg with status := "running" },
            { initialJobState cfg with status := "failed", error := some e }] := hs
        fin_cases hs2
        · exact Nat.le_refl _
        · exact Nat.le_refl _
        · exact Nat.le_refl _
    | .ok fleet =>
        have hbound := deployLoop_bound cfg orc now (finalTargets fleet cfg mids)
          (preState fleet cfg mids) (by simp [preState])
        have hstates := (deployMachines_ok_spec fleet mids cfg orc now).2.2.2.2.2.2
        rw [hstates] at hs
        rcases List.mem_append.mp hs with hs | hs
        · rcases List.mem_append.mp hs with hs | hs
          · have hs2 : s ∈ [initialJobState cfg,
                { initialJobState cfg with status := "running" },
                preState fleet cfg mids] := hs
            fin_cases hs2
            · exact Nat.le_refl _
            · exact Nat.le_refl _
            · simp [preState]
          · exact hbound.1 s hs
        · rcases List.mem_singleton.mp hs with rfl
          show (deployLoop cfg orc now (preState fleet cfg mids)
            (finalTargets fleet cfg mids)).1.successful_deployments
            + (deployLoop cfg orc now (preState fleet cfg mids)
              (finalTargets fleet cfg mids)).1.failed_deployments
            ≤ (deployLoop cfg orc now (preState fleet cfg mids)
              (finalTargets fleet cfg mids)).1.total_machines
          exact hbound.2
  · rintro fleet rfl
    have hspec := deployMachines_ok_spec fleet mids cfg orc now
    refine ⟨?_, ?_, ?_⟩
    · rw [hspec.2.1, hspec.2.2.1, hspec.2.2.2.1]
      exact List.length_eq_length_filter_add _ |>.symm
    · rw [hspec.1, hspec.2.1, countStatus_append,
        countStatus_deployed_resolveTargets,
        (countStatus_loopEntries cfg orc now (finalTargets fleet cfg mids)).1]
      omega
    · rw [hspec.1, hspec.2.2.2.1, List.length_append, List.length_map]

/-- Witness: `c1_amended` applied at a concrete successful fetch. -/
theorem c1_witness :
    (deployMachines (.ok [mNotReady]) ["m1"] cfg0 orcAllOk "T").1.successful_deployments
      + (deployMachines (.ok [mNotReady]) ["m1"] cfg0 orcAllOk "T").1.failed_deployments
      = (deployMachines (.ok [mNotReady]) ["m1"] cfg0 orcAllOk "T").1.total_machines :=
  ((c1_amended (.ok [mNotReady]) ["m1"] cfg0 orcAllOk "T").2 [mNotReady] rfl).1

/-! ## Claim C2: terminal status determination -/

/-- C2 (counterexample): a machine id missing from the re-fetched snapshot
gets a `failed` result entry, yet the terminal status is `completed`
because the not-found path does not increment `failed_deployments`. -/
theorem c2_counterexample :
    (deployMachines (.ok []) ["m1"] cfg0 orcAllOk "T").1.status = "completed"
    ∧ ∃ e ∈ (deployMachines (.ok []) ["m1"] cfg0 orcAllOk "T").1.results,
        e.status = "failed" := by decide

/-- C2 (amended): when the flow runs to the end of the loop without a
top-level exception, the terminal status is `completed` exactly when every
post-filter target's deploy call succeeded, and `completed_with_errors`
exactly when at least one deploy call failed.  `failed` entries recorded for
machines missing from the snapshot do not affect the terminal status, and
skipped outcomes alone never produce `completed_with_errors`. -/
theorem c2_amended (fleet : List Machine) (mids : List String)
    (cfg : JobConfig) (orc : String → Except String Unit) (now : String) :
    ((deployMachines (.ok fleet) mids cfg orc now).1.status = "completed"
      ∨ (deployMachines (.ok fleet) mids cfg orc now).1.status
          = "completed_with_errors")
    ∧ ((deployMachines (.ok fleet) mids cfg orc now).1.status = "completed"
        ↔ ∀ m ∈ finalTargets fleet cfg mids, okB (orc m.system_id) = true)
    ∧ ((deployMachines (.ok fleet) mids cfg orc now).1.status
          = "completed_with_errors"
        ↔ ∃ m ∈ finalTargets fleet cfg mids, okB (orc m.system_id) = false) := by
  have hst := (deployMachines_ok_spec fleet mids cfg orc now).2.2.2.2.1
  have hiff : (((finalTargets fleet cfg mids).filter
      (fun m => !okB (orc m.system_id))).length = 0)
      ↔ ∀ m ∈ finalTargets fleet cfg mids, okB (orc m.system_id) = true := by
    rw [List.length_eq_zero, List.filter_eq_nil_iff]
    constructor
    · intro h m hm
      have := h m hm
      simp only [Bool.not_eq_true', Bool.not_eq_true] at this
      simpa using this
    · intro h m hm
      simp [h m hm]
  constructor
  · rw [hst]
    by_cases h : ((finalTargets fleet cfg mids).filter
        (fun m => !okB (orc m.system_id))).length = 0
    · exact Or.inl (by rw [if_pos h])
    · exact Or.inr (by rw [if_neg h])
  constructor
  · rw [hst]
    by_cases h : ((finalTargets fleet cfg mids).filter
        (fun m => !okB (orc m.system_id))).length = 0
    · rw [if_pos h]
      simp only [true_iff]
      exact hiff.mp h
    · rw [if_neg h]
      constructor
      · intro hc
        exact absurd hc (by decide)
      · intro hall
        exact absurd (hiff.mpr hall) h
  · rw [hst]
    by_cases h : ((finalTargets fleet cfg mids).filter
        (fun m => !okB (orc m.system_id))).length = 0
    · rw [if_pos h]
      constructor
      · intro hc
        exact absurd hc (by decide)
      · rintro ⟨m, hm, hfail⟩
        have := hiff.mp h m hm
        rw [this] at hfail
        cases hfail
    · rw [if_neg h]
      simp only [true_iff]
      by_contra hnone
      push_neg at hnone
      refine h (hiff.mpr ?_)
      intro m hm
      have := hnone m hm
      exact eq_true_of_ne_false this

/-! ## Claim C9: per-machine execution -/

/-- A present, Ready machine. -/
def mReady : Machine :=
  { system_id := "m1", hostname := some "h1", status_name := "Ready" }

/-- C9 (counterexample): with no user snippet in the job config the flow
deploys a present, deployable, unfiltered machine WITHOUT invoking the rule
engine: the deploy call carries no rendered configuration at all. -/
theorem c9_counterexample :
    (deployMachines (.ok [mReady]) ["m1"] cfg0 orcAllOk "T").2.1
      = [{ machine_id := "m1", distro_series := "jammy", user_data := none }] := by
  decide

/-- C9 (amended): when the job config carries a (truthy) user snippet, the
flow issues — in target order and for every machine surviving the
status check and post-selection filters — exactly one deploy call carrying
that machine's rule-engine rendering; a successful call records a
`deployed` entry with the distro, OS family and timestamp, a failed call
records a `failed` entry carrying the error detail, and the loop continues
with the remaining machines either way. -/
theorem c9_amended (fleet : List Machine) (mids : List String)
    (cfg : JobConfig) (orc : String → Except String Unit) (now : String)
    (h : pyTruthyStr cfg.user_data = true) :
    ((deployMachines (.ok fleet) mids cfg orc now).2.1
      = (finalTargets fleet cfg mids).map (fun m =>
          { machine_id := m.system_id
            distro_series := cfg.distro_series
            user_data := some (getMachineCloudInit m (cfg.user_data.getD "")
              (deployOsType cfg.distro_series) now) }))
    ∧ (deployMachines (.ok fleet) mids cfg orc now).1.results
      = (resolveTargets fleet mids).1
        ++ (finalTargets fleet cfg mids).map (loopEntryOf cfg orc now)
    ∧ (∀ m ∈ finalTargets fleet cfg mids, okB (orc m.system_id) = true →
        loopEntryOf cfg orc now m
          = deployEntryOk m cfg.distro_series (deployOsType cfg.distro_series) now)
    ∧ (∀ m ∈ finalTargets fleet cfg mids, ∀ e, orc m.system_id = .error e →
        loopEntryOf cfg orc now m = deployEntryErr m e) := by
  have hspec := deployMachines_ok_spec fleet mids cfg orc now
  refine ⟨?_, hspec.1, ?_, ?_⟩
  · rw [hspec.2.2.2.2.2.1]
    refine List.map_congr_left ?_
    intro m _
    rw [deployCallOf, if_pos h]
  · intro m _ hok
    rw [loopEntryOf]
    rcases horc : orc m.system_id with e | u
    · rw [horc] at hok
      exact absurd hok (by simp [okB])
    · rfl
  · intro m _ e horc
    rw [loopEntryOf, horc]

/-- Config with a user snippet, used to instantiate `c9_amended`. -/
def cfgSnippet : JobConfig := { user_data := some "- custom_cmd" }

/-- Witness: `c9_amended` applied at a concrete job carrying a snippet. -/
theorem c9_witness :
    (deployMachines (.ok [mReady]) ["m1"] cfgSnippet orcAllOk "T").2.1
      = (finalTargets [mReady] cfgSnippet ["m1"]).map (fun m =>
          { machine_id := m.system_id
            distro_series := cfgSnippet.distro_series
            user_data := some (getMachineCloudInit m (cfgSnippet.user_data.getD "")
              (deployOsType cfgSnippet.distro_series) "T") }) :=
  (c9_amended [mReady] ["m1"] cfgSnippet orcAllOk "T" (by decide)).1

/-! ## Claim C10: the batch flow renders without credentials -/

/-- C10: every deploy payload the batch flow sends is either absent (no
snippet configured) or exactly the credential-free rendering of the rule
engine (`user_credentials = None`); that rendering never contains a
`users:` section, and its command list is exactly the no-user composition —
the credential-derived account-creation block is never part of it. -/
theorem c10_no_credentials (fleet : List Machine) (mids : List String)
    (cfg : JobConfig) (orc : String → Except String Unit) (now : String) :
    (∀ call ∈ (deployMachines (.ok fleet) mids cfg orc now).2.1,
        call.user_data = none
        ∨ ∃ m ∈ finalTargets fleet cfg mids,
            call.user_data = some ((generateMachineCloudInit m
              (cfg.user_data.getD "") (deployOsType cfg.distro_series)
              none now).config))
    ∧ (∀ (m : Machine) (s os : String),
        (machineFinalDoc m s os none).users = none)
    ∧ (∀ (m : Machine) (s os : String),
        (machineFinalDoc m s os none).runcmd
          = machineSpecificCmds m
            ++ (baseCommands (isRockyOsType os) ++ noUserCommands (isRockyOsType os)
              ++ (generateTagBasedEnhancements m.tag_names os).runcmd
              ++ userRuncmd s)
            ++ completionCmds
            ++ ["echo \"No user configured for this deployment\" | tee -a /var/log/cloud-init-userdata.log"]) := by
  refine ⟨?_, fun m s os => rfl, ?_⟩
  · intro call hcall
    rw [(deployMachines_ok_spec fleet mids cfg orc now).2.2.2.2.2.1] at hcall
    obtain ⟨m, hm, rfl⟩ := List.mem_map.mp hcall
    rw [deployCallOf]
    by_cases h : pyTruthyStr cfg.user_data = true
    · rw [if_pos h]
      exact Or.inr ⟨m, hm, rfl⟩
    · rw [if_neg h]
      exact Or.inl rfl
  · intro m s os
    show machineSpecificCmds m
        ++ (baseCommands (isRockyOsType os)
          ++ userSpecificCommands (isRockyOsType os) none
          ++ (generateTagBasedEnhancements m.tag_names os).runcmd
          ++ userRuncmd s)
        ++ completionCmds ++ [userVerificationCmd none] = _
    rw [userSpecificCommands]
    rfl

/-- Witness: `c10_no_credentials` applied at the concrete no-snippet job:
the deploy call for the ready machine carries no configuration payload. -/
theorem c10_witness :
    ({ machine_id := "m1", distro_series := "jammy", user_data := none }
        : DeployCall).user_data = none
    ∨ ∃ m ∈ finalTargets [mReady] cfg0 ["m1"],
        ({ machine_id := "m1", distro_series := "jammy", user_data := none }
          : DeployCall).user_data
          = some ((generateMachineCloudInit m (cfg0.user_data.getD "")
              (deployOsType cfg0.distro_series) none "T").config) :=
  (c10_no_credentials [mReady] ["m1"] cfg0 orcAllOk "T").1 _ (by decide)

/-! ## String lemmas for the rendering/redaction claim -/

/-- The characters of a joined line list: the head line, a newline, the
rest. -/
theorem data_unlines_cons (l : String) (ls : List String) :
    (unlines (l :: ls)).data = l.data ++ '\n' :: (unlines ls).data := by
  show (l ++ "\n" ++ unlines ls).data = _
  show (l.data ++ '\n' :: []) ++ (unlines ls).data = _
  simp

/-- A fragment of a member line is a fragment of the joined document. -/
theorem infix_of_mem_unlines {q : List Char} {l : String} {ls : List String}
    (hl : l ∈ ls) (hq : q <:+: l.data) : q <:+: (unlines ls).data := by
  induction ls with
  | nil => exact absurd hl (List.not_mem_nil l)
  | cons a t ih =>
      rw [data_unlines_cons]
      rcases List.mem_cons.mp hl with rfl | hl
      · exact hq.trans ⟨[], '\n' :: (unlines t).data, by simp⟩
      · exact (ih hl).trans ⟨a.data ++ ['\n'], [], by simp⟩

/-- A prefix of `X ++ c :: Y` that avoids `c` is a prefix of `X`. -/
theorem prefix_split_cons : ∀ {q X Y : List Char} {c : Char}, c ∉ q →
    q <+: X ++ c :: Y → q <+: X
  | [], _, _, _, _, _ => List.nil_prefix
  | a :: q, [], Y, c, hc, h => by
      rw [List.nil_append, List.cons_prefix_cons] at h
      exact absurd (h.1 ▸ List.mem_cons_self a q) hc
  | a :: q, x :: X, Y, c, hc, h => by
      rw [List.cons_append, List.cons_prefix_cons] at h
      rw [List.cons_prefix_cons]
      exact ⟨h.1, prefix_split_cons (fun hm => hc (List.mem_cons_of_mem a hm)) h.2⟩

/-- A fragment of `X ++ c :: Y` that avoids `c` lies entirely in `X` or
entirely in `Y`. -/
theorem infix_split_cons : ∀ {q : List Char} (X : List Char) {Y : List Char}
    {c : Char}, c ∉ q → q <:+: X ++ c :: Y → q <:+: X ∨ q <:+: Y
  | q, [], Y, c, hc, h => by
      rw [List.nil_append, List.infix_cons_iff] at h
      rcases h with h | h
      · rcases q with - | ⟨a, q⟩
        · exact Or.inl List.nil_infix
        · rw [List.cons_prefix_cons] at h
          exact absurd (h.1 ▸ List.mem_cons_self a q) hc
      · exact Or.inr h
  | q, x :: X, Y, c, hc, h => by
      rw [List.cons_append, List.infix_cons_iff] at h
      rcases h with h | h
      · exact Or.inl (prefix_split_cons hc (List.cons_append x X _ ▸ h)).isInfix
      · rcases infix_split_cons X hc h with h | h
        · exact Or.inl (h.trans ⟨[x], [], by simp⟩)
        · exact Or.inr h

/-- A newline-free fragment of a joined document is empty or a fragment of
one of its lines. -/
theorem infix_unlines_split {q : List Char} : ∀ {ls : List String},
    ('\n' : Char) ∉ q → q <:+: (unlines ls).data →
    q = [] ∨ ∃ l ∈ ls, q <:+: l.data
  | [], _, h => Or.inl (List.eq_nil_of_infix_nil h)
  | l :: ls, hnl, h => by
      rw [data_unlines_cons] at h
      rcases infix_split_cons l.data hnl h with h | h
      · exact Or.inr ⟨l, List.mem_cons_self l ls, h⟩
      · rcases infix_unlines_split hnl h with h | ⟨a, ha, hq⟩
        · exact Or.inl h
        · exact Or.inr ⟨a, List.mem_cons_of_mem l ha, hq⟩

/-- `str.replace` leaves a string without the pattern untouched. -/
theorem replaceAllL_of_not_infix {pat : List Char} (rep : List Char) :
    ∀ {s : List Char}, ¬ pat <:+: s → replaceAllL pat rep s = s
  | [], _ => by simp [replaceAllL]
  | c :: rest, h => by
      simp only [replaceAllL]
      rw [if_neg, replaceAllL_of_not_infix rep
        (fun hi => h (List.infix_cons_iff.mpr (Or.inr hi)))]
      rintro ⟨-, hpre⟩
      exact h (List.infix_cons_iff.mpr (Or.inl hpre))

/-- `str.replace` distributes over a separator character that the pattern
does not contain. -/
theorem replaceAllL_append_cons (pat rep : List Char) {c : Char}
    (hc : c ∉ pat) : ∀ (n : Nat) (X Y : List Char), X.length ≤ n →
    replaceAllL pat rep (X ++ c :: Y)
      = replaceAllL pat rep X ++ c :: replaceAllL pat rep Y := by
  have hnopre : ∀ Z : List Char, ¬ (pat ≠ [] ∧ pat <+: (c :: Z)) := by
    rintro Z ⟨hne, hpre⟩
    rcases pat with - | ⟨p, ps⟩
    · exact hne rfl
    · rw [List.cons_prefix_cons] at hpre
      exact hc (hpre.1 ▸ List.mem_cons_self p ps)
  have hbase : ∀ Y : List Char, replaceAllL pat rep (c :: Y)
      = c :: replaceAllL pat rep Y := by
    intro Y
    simp only [replaceAllL]
    rw [if_neg (hnopre Y)]
  have hnil : replaceAllL pat rep [] = [] := by simp [replaceAllL]
  intro n
  induction n with
  | zero =>
      intro X Y hX
      rw [List.eq_nil_of_length_eq_zero (Nat.le_zero.mp hX), List.nil_append,
        hbase Y, hnil, List.nil_append]
  | succ n ih =>
      intro X Y hX
      rcases X with - | ⟨x, X⟩
      · rw [List.nil_append, hbase Y, hnil, List.nil_append]
      · rw [List.cons_append]
        by_cases hpre : pat ≠ [] ∧ pat <+: (x :: (X ++ c :: Y))
        · have hpx : pat <+: x :: X :=
            prefix_split_cons hc (List.cons_append x X (c :: Y) ▸ hpre.2)
          obtain ⟨r, hr⟩ := hpx
          have hlr : pat.length + r.length = X.length + 1 := by
            have := congrArg List.length hr
            simpa [List.length_append] using this
          have hpat1 : 1 ≤ pat.length := List.length_pos.mpr hpre.1
          have hdrop1 : (x :: (X ++ c :: Y)).drop pat.length = r ++ c :: Y := by
            have hsplit : x :: (X ++ c :: Y) = pat ++ (r ++ c :: Y) := by
              rw [← List.append_assoc, hr]
              rfl
            rw [hsplit, List.drop_left]
          have hdrop2 : (x :: X).drop pat.length = r := by
            rw [← hr, List.drop_left]
          have hX2 : X.length + 1 ≤ n + 1 := by simpa using hX
          simp only [replaceAllL]
          rw [if_pos hpre, hdrop1, ih r Y (by omega),
            if_pos ⟨hpre.1, ⟨r, hr⟩⟩, hdrop2, List.append_assoc]
        · have hpre2 : ¬ (pat ≠ [] ∧ pat <+: (x :: X)) := by
            rintro ⟨hne, hp⟩
            exact hpre ⟨hne, (List.cons_append x X (c :: Y)) ▸
              (hp.trans (List.prefix_append _ _))⟩
          simp only [replaceAllL]
          rw [if_neg hpre, ih X Y (by simpa using hX), if_neg hpre2,
            List.cons_append]

/-- `str.replace` on the pattern itself. -/
theorem replaceAllL_self (pat rep : List Char) (hne : pat ≠ []) :
    replaceAllL pat rep pat = rep := by
  rcases hp : pat with - | ⟨p, ps⟩
  · exact absurd rfl (hp ▸ hne)
  · simp only [replaceAllL]
    rw [if_pos ⟨hp ▸ hne, List.prefix_refl _⟩,
      show (p :: ps).drop (p :: ps).length = [] from List.drop_length _]
    simp only [replaceAllL]
    exact List.append_nil rep

/-- `str.replace` on the pattern preceded by two spaces (the indented
`plain_text_passwd:` line), for a pattern starting with `'p'`. -/
theorem replaceAllL_indent (pat rep : List Char) (hne : pat ≠ [])
    (hhead : pat.head? = some 'p') :
    replaceAllL pat rep (' ' :: ' ' :: pat) = ' ' :: ' ' :: rep := by
  have hnopre : ∀ Z : List Char, ¬ (pat ≠ [] ∧ pat <+: (' ' :: Z)) := by
    rintro Z ⟨-, hpre⟩
    rcases pat with - | ⟨p, ps⟩
    · cases hhead
    · rw [List.cons_prefix_cons] at hpre
      rw [List.head?_cons, Option.some_inj] at hhead
      rw [hhead] at hpre
      cases hpre.1
  simp only [replaceAllL]
  rw [if_neg (hnopre _), if_neg (hnopre _), replaceAllL_self pat rep hne]

/-- Lines free of the pattern survive the per-line replacement pass
unchanged. -/
theorem map_replace_noop (pat rep : String) : ∀ (ls : List String),
    (∀ l ∈ ls, ¬ pat.data <:+: l.data) →
    ls.map (fun l => pyReplaceAll l pat rep) = ls
  | [], _ => rfl
  | l :: ls, h => by
      rw [List.map_cons, map_replace_noop pat rep ls
        (fun a ha => h a (List.mem_cons_of_mem l ha))]
      have hid : pyReplaceAll l pat rep = l := by
        rw [pyReplaceAll, replaceAllL_of_not_infix _ (h l (List.mem_cons_self l ls))]
      rw [hid]

/-- Python `replace` over a joined document with a newline-free pattern
acts line by line. -/
theorem pyReplaceAll_unlines (pat rep : String)
    (hnl : ('\n' : Char) ∉ pat.data) : ∀ ls : List String,
    pyReplaceAll (unlines ls) pat rep
      = unlines (ls.map (fun l => pyReplaceAll l pat rep))
  | [] => by
      show (⟨replaceAllL pat.data rep.data []⟩ : String) = ""
      simp only [replaceAllL]
  | l :: ls => by
      apply String.ext
      show replaceAllL pat.data rep.data (unlines (l :: ls)).data = _
      rw [data_unlines_cons, replaceAllL_append_cons pat.data rep.data hnl
        l.data.length l.data (unlines ls).data (Nat.le_refl _)]
      rw [List.map_cons, data_unlines_cons]
      have ihdata : replaceAllL pat.data rep.data (unlines ls).data
          = (unlines (ls.map (fun l => pyReplaceAll l pat rep))).data :=
        congrArg String.data (pyReplaceAll_unlines pat rep hnl ls)
      rw [ihdata]
      rfl

/-! ## Claim C3: display rendering vs deploy rendering -/

/-- The lines of an Ubuntu-family rendering that precede the
`plain_text_passwd:` line; they depend on the machine, the clock and the
username but NOT on the password. -/
def c3Pre (m : Machine) (now os u : String) : List String :=
  headerLines m now
    ++ "packages:" :: (ubuntuPackages.map (fun x => "- " ++ x)
      ++ (generateTagBasedEnhancements m.tag_names os).packages.map
          (fun x => "- " ++ x))
    ++ ["ssh_pwauth: true", "disable_root: false", "users:", "- name: " ++ u]

/-- The lines of an Ubuntu-family rendering that follow the
`plain_text_passwd:` line; they depend on the machine, snippet, OS string,
clock and username but NOT on the password. -/
def c3Post (m : Machine) (s os u : String) : List String :=
  ["  sudo: ALL=(ALL) NOPASSWD:ALL", "  shell: /bin/bash", "  groups:",
   "  - sudo", "  - docker", "  lock_passwd: false", "write_files:"]
    ++ (List.map yamlWriteFileLines
        ({ content := wekaSysctlContent, path := "/etc/sysctl.d/99-weka.conf" }
          :: (generateTagBasedEnhancements m.tag_names os).write_files)).flatten
    ++ "runcmd:" ::
      ((machineSpecificCmds m
        ++ (baseCommands false ++ ubuntuUserCommands u
            ++ (generateTagBasedEnhancements m.tag_names os).runcmd
            ++ userRuncmd s)
        ++ completionCmds
        ++ ["id " ++ u ++ " | tee -a /var/log/cloud-init-userdata.log || echo \"ERROR: " ++ u ++ " user not created!\" | tee -a /var/log/cloud-init-userdata.log"]).map
        (fun c => "- " ++ c))
    ++ ["hostname: " ++ m.ciHostname,
        "final_message: " ++ ("MAAS deployment completed successfully for "
          ++ m.ciHostname ++ " with Weka configurations")]

/-- A full credential also passes the weaker user-commands guard. -/
theorem credUser_of_credFull {uc : UserCredentials}
    (h : credFull (some uc) = true) : credUser (some uc) = true := by
  simp only [credFull, Bool.and_eq_true] at h
  simp only [credUser, Bool.and_eq_true]
  exact ⟨h.1.1, h.1.2⟩

/-- An Ubuntu-family rendering with a full credential splits into the
password-independent prefix, the single `plain_text_passwd:` line, and the
password-independent suffix. -/
theorem machineConfigLines_ubuntu_split (m : Machine) (s os now : String)
    (uc : UserCredentials) (hos : isRockyOsType os = false)
    (hcf : credFull (some uc) = true) :
    machineConfigLines m s os (some uc) now
      = c3Pre m now os (pyShow uc.username)
        ++ ["  plain_text_passwd: " ++ pyShow uc.password]
        ++ c3Post m s os (pyShow uc.username) := by
  have hcu := credUser_of_credFull hcf
  have hlit1 : ("ssh_pwauth: " ++ "true" : String) = "ssh_pwauth: true" := rfl
  have hlit2 : ("disable_root: " ++ "false" : String) = "disable_root: false" := rfl
  simp only [machineConfigLines, machineFinalDoc, yamlDumpLines,
    mergeConfigurations, generateBaseCloudInit, userSpecificCommands,
    userVerificationCmd, yamlUserLines, c3Pre, c3Post, hos, hcf, hcu,
    hlit1, hlit2,
    Option.getD_some, if_true, if_false, Bool.false_eq_true, ite_false,
    ite_true, List.append_assoc, List.cons_append, List.singleton_append,
    List.map_append, List.nil_append]

/-- C3 (amended): for an Ubuntu-family rendering with a full credential
whose password fragment `plain_text_passwd: <password>` contains no newline
and occurs in no other line, the deploy rendering splits around the single
`plain_text_passwd:` line, the display rendering is byte-identical to it
except that this one line is replaced by the redaction marker, and every
non-empty newline-free fragment of the display rendering (in particular the
password) occurs either in a password-independent line or in the redaction
line — so no other occurrence of the password survives. -/
theorem c3_amended (m : Machine) (s os now : String) (uc : UserCredentials)
    (hos : isRockyOsType os = false)
    (hcf : credFull (some uc) = true)
    (hnl : ('\n' : Char) ∉ ("plain_text_passwd: " ++ pyShow uc.password).data)
    (hclean : ∀ l ∈ c3Pre m now os (pyShow uc.username)
        ++ c3Post m s os (pyShow uc.username),
        ¬ ("plain_text_passwd: " ++ pyShow uc.password).data <:+: l.data) :
    (generateCloudInit [m] s os (some uc) now).config
      = unlines (c3Pre m now os (pyShow uc.username)
          ++ ["  plain_text_passwd: " ++ pyShow uc.password]
          ++ c3Post m s os (pyShow uc.username))
    ∧ (generateCloudInit [m] s os (some uc) now).displayConfig
      = unlines (c3Pre m now os (pyShow uc.username)
          ++ ["  " ++ hiddenMarker]
          ++ c3Post m s os (pyShow uc.username))
    ∧ (∀ q : List Char, q ≠ [] → ('\n' : Char) ∉ q →
        q <:+: (generateCloudInit [m] s os (some uc) now).displayConfig.data →
        (∃ l ∈ c3Pre m now os (pyShow uc.username)
            ++ c3Post m s os (pyShow uc.username), q <:+: l.data)
        ∨ q <:+: ("  " ++ hiddenMarker).data) := by
  have hsplit := machineConfigLines_ubuntu_split m s os now uc hos hcf
  have hcfg : (generateCloudInit [m] s os (some uc) now).config
      = unlines (machineConfigLines m s os (some uc) now) := rfl
  have hpw : pyTruthyStr uc.password = true := by
    simp only [credFull, Bool.and_eq_true] at hcf
    exact hcf.2
  have hne : ("plain_text_passwd: " ++ pyShow uc.password).data ≠ [] := by
    intro h
    exact List.noConfusion h
  have hhead : ("plain_text_passwd: " ++ pyShow uc.password).data.head?
      = some 'p' := rfl
  have hdisp : (generateCloudInit [m] s os (some uc) now).displayConfig
      = pyReplaceAll (unlines (machineConfigLines m s os (some uc) now))
          ("plain_text_passwd: " ++ pyShow uc.password) hiddenMarker := by
    show sanitizeDisplay _ (some uc) = _
    simp only [sanitizeDisplay]
    rw [if_pos hpw]
    rfl
  have hmid : pyReplaceAll ("  plain_text_passwd: " ++ pyShow uc.password)
      ("plain_text_passwd: " ++ pyShow uc.password) hiddenMarker
      = "  " ++ hiddenMarker := by
    apply String.ext
    show replaceAllL ("plain_text_passwd: " ++ pyShow uc.password).data
        hiddenMarker.data
        (' ' :: ' ' :: ("plain_text_passwd: " ++ pyShow uc.password).data)
        = ' ' :: ' ' :: hiddenMarker.data
    exact replaceAllL_indent _ _ hne hhead
  have hrepl : pyReplaceAll
      (unlines (machineConfigLines m s os (some uc) now))
      ("plain_text_passwd: " ++ pyShow uc.password) hiddenMarker
      = unlines (c3Pre m now os (pyShow uc.username)
          ++ ["  " ++ hiddenMarker]
          ++ c3Post m s os (pyShow uc.username)) := by
    rw [hsplit, pyReplaceAll_unlines _ _ hnl, List.map_append, List.map_append,
      map_replace_noop _ _ _
        (fun l hl => hclean l (List.mem_append.mpr (Or.inl hl))),
      map_replace_noop _ _ _
        (fun l hl => hclean l (List.mem_append.mpr (Or.inr hl))),
      List.map_cons, List.map_nil, hmid]
  refine ⟨by rw [hcfg, hsplit], by rw [hdisp, hrepl], ?_⟩
  intro q hqne hqnl hq
  rw [hdisp, hrepl] at hq
  rcases infix_unlines_split hqnl hq with h | ⟨l, hl, hql⟩
  · exact absurd h hqne
  · rcases List.mem_append.mp hl with hl | hl
    · rcases List.mem_append.mp hl with hl | hl
      · exact Or.inl ⟨l, List.mem_append.mpr (Or.inl hl), hql⟩
      · rcases List.mem_singleton.mp hl with rfl
        exact Or.inr hql
    · exact Or.inl ⟨l, List.mem_append.mpr (Or.inr hl), hql⟩

/-- C3 (counterexample machine): an untagged ready machine. -/
def c3Machine : Machine :=
  { system_id := "abc123", hostname := some "node1", status_name := "Ready" }

/-- C3 (counterexample credential). -/
def c3Cred : UserCredentials :=
  { configured := some true, username := some "weka", password := some "s3cret" }

/-- The Rocky account-creation line that still carries the password after
display sanitizing. -/
def c3LeakLine : String :=
  "-   echo \"weka:s3cret\" | chpasswd 2>&1 | tee -a /var/log/cloud-init-userdata.log"

set_option maxRecDepth 40000 in
set_option maxHeartbeats 2000000 in
/-- C3 (counterexample): for a Rocky-family rendering the password survives
verbatim in the display rendering (inside the account-creation commands),
so the display rendering is NOT free of the password outside the redacted
span. -/
theorem c3_counterexample :
    "s3cret".data <:+:
      (generateCloudInit [c3Machine] "" "rocky" (some c3Cred) "T0").displayConfig.data := by
  have hpw : pyTruthyStr c3Cred.password = true := by decide
  have hnl : ('\n' : Char) ∉ ("plain_text_passwd: " ++ pyShow c3Cred.password).data := by
    decide
  have hdisp : (generateCloudInit [c3Machine] "" "rocky" (some c3Cred) "T0").displayConfig
      = unlines ((machineConfigLines c3Machine "" "rocky" (some c3Cred) "T0").map
          (fun l => pyReplaceAll l
            ("plain_text_passwd: " ++ pyShow c3Cred.password) hiddenMarker)) := by
    show sanitizeDisplay _ (some c3Cred) = _
    simp only [sanitizeDisplay]
    rw [if_pos hpw]
    exact pyReplaceAll_unlines _ _ hnl _
  rw [hdisp]
  have hmem : c3LeakLine ∈ machineConfigLines c3Machine "" "rocky" (some c3Cred) "T0" := by
    decide
  have hni : ¬ ("plain_text_passwd: " ++ pyShow c3Cred.password).data
      <:+: c3LeakLine.data := by decide
  have hmap : c3LeakLine ∈ (machineConfigLines c3Machine "" "rocky" (some c3Cred) "T0").map
      (fun l => pyReplaceAll l
        ("plain_text_passwd: " ++ pyShow c3Cred.password) hiddenMarker) := by
    refine List.mem_map.mpr ⟨c3LeakLine, hmem, ?_⟩
    show pyReplaceAll c3LeakLine _ _ = c3LeakLine
    rw [pyReplaceAll, replaceAllL_of_not_infix _ hni]
  exact infix_of_mem_unlines hmap (by decide : "s3cret".data <:+: c3LeakLine.data)

/-- Concrete Ubuntu-family machine for the C3 witness. -/
def c3WMachine : Machine :=
  { system_id := "u1", hostname := some "unode", status_name := "Ready" }

set_option maxRecDepth 40000 in
set_option maxHeartbeats 4000000 in
/-- Witness: `c3_amended` applied at a concrete Ubuntu rendering — the
display rendering equals the deploy rendering with the single
`plain_text_passwd:` line replaced by the redaction marker. -/
theorem c3_witness :
    (generateCloudInit [c3WMachine] "" "ubuntu" (some c3Cred) "T0").displayConfig
      = unlines (c3Pre c3WMachine "T0" "ubuntu" (pyShow c3Cred.username)
          ++ ["  " ++ hiddenMarker]
          ++ c3Post c3WMachine "" "ubuntu" (pyShow c3Cred.username)) :=
  (c3_amended c3WMachine "" "ubuntu" "T0" c3Cred (by decide) (by decide)
    (by decide) (by decide)).2.1

end MaasFrontend
